import Mathlib

/-!
A verification development for the 8-Ball-Classic billiards program.

The file shallowly embeds the core simulation found in the repository:
vector arithmetic (physics/vector2.ts), ball motion with friction and the
stop threshold (game-objects/ball.ts), ball-cushion and ball-ball collision
resolution, pocket handling, cue-ball placement, turn conclusion and
hand-off (game-objects/game-world.ts), referee rules
(game-objects/referee.ts), and the AI trainer's best-candidate tracking
(ai/ai-trainer.ts).  Floating-point numbers are modeled as real numbers; a
separate small model with IEEE special values (infinity, NaN) over exact
rationals is used where the distinction matters (degenerate collision
geometry).  Object references are modeled with explicit ball ids, and the
world carries a store of ball objects so that references held by the turn
state survive removal from the play list, exactly as in the source.
External collaborators (canvas, sounds, mouse/keyboard capture, the
setTimeout that hides the stick, and the AI session hand-off) are excluded
from the core, matching the specification's scope; where the core reads
them, the embedding takes their values as explicit inputs.
-/

namespace EightBall

/-- Ball colors, as used by the game objects (the repository's common/color
module, consumed by referee.ts, ball.ts and game-world.ts). -/
inductive Color
| white
| black
| red
| yellow
deriving DecidableEq

/-- A player (game-objects/player.ts): assigned color (`none` until a color
is assigned, modeling the TS `Color | null`), match score, overall score. -/
structure Player where
  color : Option Color
  matchScore : ℤ
  overallScore : ℤ
deriving DecidableEq

namespace Referee

/-- Referee.isValidFirstTouch (referee.ts lines 28-41).  The TS
`collidedBallColor` is `undefined` until a first collision is recorded,
modeled as `Option Color`; `!player.color` is the null test on the
player's assigned color. -/
def isValidFirstTouch (player : Player) (collidedBallColor : Option Color)
    (somePocketed : Bool) : Bool :=
  match collidedBallColor with
  | none => false
  | some c =>
    match player.color with
    | none => decide (c ≠ Color.black)
    | some pc =>
      decide (pc = c) ||
      (decide (player.matchScore = 1) && somePocketed && decide (c ≠ Color.black)) ||
      (decide (player.matchScore = 7) && decide (c = Color.black)) ||
      (decide (player.matchScore = 8) && decide (c = Color.black))

end Referee

/-- 2D vector (physics/vector2.ts), coordinates modeled as real numbers. -/
structure Vector2 where
  x : ℝ
  y : ℝ

instance : Inhabited Vector2 := ⟨⟨0, 0⟩⟩

/-- Vector2.zero -/
def Vector2.zero : Vector2 := ⟨0, 0⟩

/-- Vector2.add (returns a fresh vector; the in-place variants addTo,
addToX, addToY have the same value semantics here). -/
def Vector2.add (v w : Vector2) : Vector2 := ⟨v.x + w.x, v.y + w.y⟩

/-- Vector2.subtract -/
def Vector2.subtract (v w : Vector2) : Vector2 := ⟨v.x - w.x, v.y - w.y⟩

/-- Vector2.mult (scalar multiplication; multBy has the same value
semantics). -/
def Vector2.mult (v : Vector2) (c : ℝ) : Vector2 := ⟨v.x * c, v.y * c⟩

/-- Vector2.addX -/
def Vector2.addX (v : Vector2) (c : ℝ) : Vector2 := ⟨v.x + c, v.y⟩

/-- Vector2.addY -/
def Vector2.addY (v : Vector2) (c : ℝ) : Vector2 := ⟨v.x, v.y + c⟩

/-- Vector2.dot -/
def Vector2.dot (v w : Vector2) : ℝ := v.x * w.x + v.y * w.y

/-- Vector2.length: `Math.sqrt(Math.pow(x, 2) + Math.pow(y, 2))`. -/
noncomputable def Vector2.length (v : Vector2) : ℝ := Real.sqrt (v.x ^ 2 + v.y ^ 2)

/-- Vector2.distFrom: `this.subtract(vector).length`. -/
noncomputable def Vector2.distFrom (v w : Vector2) : ℝ := (v.subtract w).length

/-- The configuration constants consumed by the core (game.config.ts).
Per the specification, configuration is input to the core, not owned by
it, so the physics and world operations are parameterized over it. -/
structure Config where
  friction : ℝ
  collisionLoss : ℝ
  diameter : ℝ
  minVelocityLength : ℝ
  cushionWidth : ℝ
  gameSizeX : ℝ
  gameSizeY : ℝ
  pocketRadius : ℝ
  pocketsPositions : List Vector2
  cueBallPosition : Vector2
  eightBallPosition : Vector2
  redBallsPositions : List Vector2
  yellowBallsPositions : List Vector2
  stickOrigin : Vector2
  stickShotOrigin : Vector2

/-- The concrete configuration values of game.config.ts. -/
noncomputable def gameConfig : Config where
  friction := 0.018
  collisionLoss := 0.018
  diameter := 38
  minVelocityLength := 0.05
  cushionWidth := 57
  gameSizeX := 1500
  gameSizeY := 825
  pocketRadius := 48
  pocketsPositions :=
    [⟨62, 62⟩, ⟨750, 32⟩, ⟨1435, 62⟩, ⟨62, 762⟩, ⟨750, 794⟩, ⟨1435, 762⟩]
  cueBallPosition := ⟨413, 413⟩
  eightBallPosition := ⟨1090, 413⟩
  redBallsPositions :=
    [⟨1056, 433⟩, ⟨1090, 374⟩, ⟨1126, 393⟩, ⟨1126, 472⟩, ⟨1162, 335⟩,
     ⟨1162, 374⟩, ⟨1162, 452⟩]
  yellowBallsPositions :=
    [⟨1022, 413⟩, ⟨1056, 393⟩, ⟨1090, 452⟩, ⟨1126, 354⟩, ⟨1126, 433⟩,
     ⟨1162, 413⟩, ⟨1162, 491⟩]
  stickOrigin := ⟨970, 11⟩
  stickShotOrigin := ⟨950, 11⟩

/-- A billiard ball (game-objects/ball.ts).  `id` models object reference
identity: the TS code distinguishes balls by reference (for example
`pocketedBalls.includes(ball)` and `balls.indexOf(ball)`); ids are unique
per match and never mutated. -/
structure Ball where
  id : ℕ
  pos : Vector2
  vel : Vector2
  moving : Bool
  visible : Bool
  color : Color

instance : Inhabited Ball := ⟨⟨0, default, Vector2.zero, false, true, Color.white⟩⟩

/-- The Ball velocity setter (ball.ts): stores the velocity and derives
`moving` from `value.length > 0`. -/
noncomputable def Ball.setVelocity (b : Ball) (v : Vector2) : Ball :=
  { b with vel := v, moving := decide (v.length > 0) }

/-- Ball.nextPosition (ball.ts): the projected position one tick ahead,
`position.add(velocity.mult(1 - friction))`. -/
noncomputable def Ball.nextPosition (cfg : Config) (b : Ball) : Vector2 :=
  b.pos.add (b.vel.mult (1 - cfg.friction))

/-- Ball.update (ball.ts): if moving, scale the velocity in place by
`(1 - friction)`, advance the position by the already-scaled velocity,
then snap to rest when the speed falls below the minimum threshold. -/
noncomputable def Ball.update (cfg : Config) (b : Ball) : Ball :=
  if b.moving then
    let v := b.vel.mult (1 - cfg.friction)
    let p := b.pos.add v
    if v.length < cfg.minVelocityLength then
      { b with pos := p, vel := Vector2.zero, moving := false }
    else
      { b with pos := p, vel := v }
  else b

/-- Ball.hide (ball.ts): zero the velocity, clear moving and visibility. -/
def Ball.hide (b : Ball) : Ball :=
  { b with vel := Vector2.zero, moving := false, visible := false }

/-- Ball.show (ball.ts): place at a position, zero the velocity, make
visible (moving is not touched by show in the source). -/
def Ball.show (b : Ball) (position : Vector2) : Ball :=
  { b with pos := position, vel := Vector2.zero, visible := true }

/-- Ball.shoot (ball.ts): set velocity from power and angle, mark moving. -/
noncomputable def Ball.shoot (b : Ball) (power angle : ℝ) : Ball :=
  { b with vel := ⟨power * Real.cos angle, power * Real.sin angle⟩, moving := true }

/-- GameWorld.isBallPosOutsideTopBorder (game-world.ts). -/
def isBallPosOutsideTopBorder (cfg : Config) (position : Vector2) : Prop :=
  position.y - cfg.diameter / 2 ≤ cfg.cushionWidth

/-- GameWorld.isBallPosOutsideLeftBorder (game-world.ts). -/
def isBallPosOutsideLeftBorder (cfg : Config) (position : Vector2) : Prop :=
  position.x - cfg.diameter / 2 ≤ cfg.cushionWidth

/-- GameWorld.isBallPosOutsideRightBorder (game-world.ts). -/
def isBallPosOutsideRightBorder (cfg : Config) (position : Vector2) : Prop :=
  position.x + cfg.diameter / 2 ≥ cfg.gameSizeX - cfg.cushionWidth

/-- GameWorld.isBallPosOutsideBottomBorder (game-world.ts). -/
def isBallPosOutsideBottomBorder (cfg : Config) (position : Vector2) : Prop :=
  position.y + cfg.diameter / 2 ≥ cfg.gameSizeY - cfg.cushionWidth

noncomputable instance (cfg : Config) (p : Vector2) : Decidable (isBallPosOutsideTopBorder cfg p) :=
  inferInstanceAs (Decidable (_ ≤ _))

noncomputable instance (cfg : Config) (p : Vector2) : Decidable (isBallPosOutsideLeftBorder cfg p) :=
  inferInstanceAs (Decidable (_ ≤ _))

noncomputable instance (cfg : Config) (p : Vector2) : Decidable (isBallPosOutsideRightBorder cfg p) :=
  inferInstanceAs (Decidable (_ ≥ _))

noncomputable instance (cfg : Config) (p : Vector2) : Decidable (isBallPosOutsideBottomBorder cfg p) :=
  inferInstanceAs (Decidable (_ ≥ _))

/-- GameWorld.handleCollisionWithTopCushion: clamp back inside the top
boundary, invert the vertical velocity component. -/
noncomputable def handleCollisionWithTopCushion (cfg : Config) (ball : Ball) : Ball :=
  let b := { ball with pos := ball.pos.addY (cfg.cushionWidth - ball.pos.y + cfg.diameter / 2) }
  b.setVelocity ⟨b.vel.x, -b.vel.y⟩

/-- GameWorld.handleCollisionWithLeftCushion. -/
noncomputable def handleCollisionWithLeftCushion (cfg : Config) (ball : Ball) : Ball :=
  let b := { ball with pos := ball.pos.addX (cfg.cushionWidth - ball.pos.x + cfg.diameter / 2) }
  b.setVelocity ⟨-b.vel.x, b.vel.y⟩

/-- GameWorld.handleCollisionWithRightCushion. -/
noncomputable def handleCollisionWithRightCushion (cfg : Config) (ball : Ball) : Ball :=
  let b := { ball with
    pos := ball.pos.addX (cfg.gameSizeX - cfg.cushionWidth - ball.pos.x - cfg.diameter / 2) }
  b.setVelocity ⟨-b.vel.x, b.vel.y⟩

/-- GameWorld.handleCollisionWithBottomCushion. -/
noncomputable def handleCollisionWithBottomCushion (cfg : Config) (ball : Ball) : Ball :=
  let b := { ball with
    pos := ball.pos.addY (cfg.gameSizeY - cfg.cushionWidth - ball.pos.y - cfg.diameter / 2) }
  b.setVelocity ⟨ball.vel.x, -ball.vel.y⟩

/-- GameWorld.resolveBallCollisionWithCushion: test each border against the
projected next position (re-evaluated after each handler, as the source
re-reads the getter), then apply the energy-loss scaling once if any
border collided. -/
noncomputable def resolveBallCollisionWithCushion (cfg : Config) (ball : Ball) : Ball :=
  let p1 : Ball × Bool :=
    if isBallPosOutsideTopBorder cfg (ball.nextPosition cfg) then
      (handleCollisionWithTopCushion cfg ball, true)
    else (ball, false)
  let p2 : Ball × Bool :=
    if isBallPosOutsideLeftBorder cfg (p1.1.nextPosition cfg) then
      (handleCollisionWithLeftCushion cfg p1.1, true)
    else p1
  let p3 : Ball × Bool :=
    if isBallPosOutsideRightBorder cfg (p2.1.nextPosition cfg) then
      (handleCollisionWithRightCushion cfg p2.1, true)
    else p2
  let p4 : Ball × Bool :=
    if isBallPosOutsideBottomBorder cfg (p3.1.nextPosition cfg) then
      (handleCollisionWithBottomCushion cfg p3.1, true)
    else p3
  if p4.2 then p4.1.setVelocity (p4.1.vel.mult (1 - cfg.collisionLoss)) else p4.1

/-- GameWorld.resolveBallsCollision (game-world.ts): pairwise elastic
collision with positional correction and energy loss.  Returns the two
updated balls and whether a collision occurred. -/
noncomputable def resolveBallsCollision (cfg : Config) (first second : Ball) :
    Ball × Ball × Bool :=
  if first.visible = false ∨ second.visible = false then (first, second, false)
  else
    let n := first.pos.subtract second.pos
    let dist := n.length
    if dist > cfg.diameter then (first, second, false)
    else
      let mtd := n.mult ((cfg.diameter - dist) / dist)
      let first1 := { first with pos := first.pos.add (mtd.mult 0.5) }
      let second1 := { second with pos := second.pos.subtract (mtd.mult 0.5) }
      let un := n.mult (1 / n.length)
      let ut : Vector2 := ⟨-un.y, un.x⟩
      let v1n := un.dot first1.vel
      let v1t := ut.dot first1.vel
      let v2n := un.dot second1.vel
      let v2t := ut.dot second1.vel
      let first2 := first1.setVelocity ((un.mult v2n).add (ut.mult v1t))
      let second2 := second1.setVelocity ((un.mult v1n).add (ut.mult v2t))
      let first3 := first2.setVelocity (first2.vel.mult (1 - cfg.collisionLoss))
      let second3 := second2.setVelocity (second2.vel.mult (1 - cfg.collisionLoss))
      (first3, second3, true)

end EightBall

namespace EightBall

namespace Referee

/-- Referee.isValidPocketedBalls (referee.ts lines 51-68).  The pocketed
balls are the referenced Ball objects (only their immutable color and the
list length are read). -/
def isValidPocketedBalls (player : Player) (pocketedBalls : List Ball) : Bool :=
  match pocketedBalls with
  | [] => true
  | b :: _ =>
    match player.color with
    | some c =>
      if player.matchScore = 8 then
        decide (pocketedBalls.length = 1) && decide (b.color = Color.black)
      else
        pocketedBalls.all (fun ball => decide (ball.color = c))
    | none =>
      decide (b.color ≠ Color.white) && decide (b.color ≠ Color.black) &&
      pocketedBalls.all (fun ball => decide (ball.color = b.color))

/-- Referee.isValidTurn (referee.ts lines 79-82): first-touch validity and
pocketed-balls validity must both hold.  The somePocketed argument is
`state.pocketedBalls.length > 0` at the call site. -/
def isValidTurn (player : Player) (firstCollidedBallColor : Option Color)
    (pocketedBalls : List Ball) : Bool :=
  isValidFirstTouch player firstCollidedBallColor (decide (pocketedBalls.length > 0)) &&
  isValidPocketedBalls player pocketedBalls

/-- Referee.isGameOver (referee.ts lines 94-98). -/
def isGameOver (currentPlayer : Player) (cueBall eightBall : Ball) : Bool :=
  !eightBall.visible ||
  (!cueBall.visible && decide (currentPlayer.matchScore = 7)) ||
  (!cueBall.visible && decide (currentPlayer.matchScore = 8))

end Referee

/-- Per-turn state (game-objects/state.ts).  `pocketedBalls` holds the
references (ball ids) of the balls pocketed this turn, in pocketing
order; they are resolved through the world's ball store. -/
structure TurnState where
  firstCollidedBallColor : Option Color
  pocketedBalls : List ℕ
  ballInHand : Bool
  isValid : Bool
deriving DecidableEq

/-- A fresh turn state: no first collision recorded, no pocketed balls,
no ball in hand, not valid (the source class's field initializers). -/
def TurnState.init : TurnState := ⟨none, [], false, false⟩

/-- The cue stick (game-objects/stick.ts): position, rotation origin,
rotation, shot power, and the movable/visible flags. -/
structure Stick where
  position : Vector2
  origin : Vector2
  rotation : ℝ
  power : ℝ
  movable : Bool
  visible : Bool

/-- Stick.hide (stick.ts): reset power, hide, stop movement. -/
def Stick.hide (s : Stick) : Stick :=
  { s with power := 0, visible := false, movable := false }

/-- Stick.show (stick.ts): place at a position, reset the origin from the
configuration, make movable and visible. -/
def Stick.show (cfg : Config) (s : Stick) (position : Vector2) : Stick :=
  { s with position := position, origin := cfg.stickOrigin, movable := true, visible := true }

/-- The inputs the core reads from the excluded presentation layer during
one tick: the mouse position, whether the place-ball and shoot buttons
are pressed, and the stick rotation/power that the input-driven
Stick.update would produce this frame (stick rotation follows the mouse
via atan2 and power follows the W/S keys; both are external input
concerns per the specification's scope). -/
structure Input where
  mousePos : Vector2
  placePressed : Bool
  shootPressed : Bool
  stickRotation : ℝ
  stickPower : ℝ

/-- Stick.update (stick.ts): when movable, the stick takes the
input-driven rotation and power for this frame. -/
def Stick.updateFromInput (input : Input) (s : Stick) : Stick :=
  if s.movable then { s with rotation := input.stickRotation, power := input.stickPower } else s

/-- GameWorld (game-objects/game-world.ts).  `store` is the heap of ball
objects (reference = id); `balls` is the `_balls` array as a list of
references; `cueBallId`/`eightBallId` are the `_cueBall`/`_8Ball`
references, which stay alive even after a ball is spliced out of
`_balls`. -/
structure GameWorld where
  stick : Stick
  store : List Ball
  balls : List ℕ
  cueBallId : ℕ
  eightBallId : ℕ
  players : Fin 2 → Player
  currentPlayerIndex : Fin 2
  turnState : TurnState

/-- Dereference a ball id through the store. -/
def getBall (w : GameWorld) (id : ℕ) : Ball :=
  (w.store.find? (fun b => decide (b.id = id))).getD default

/-- Write a ball object back through its reference. -/
def setBall (w : GameWorld) (id : ℕ) (b : Ball) : GameWorld :=
  { w with store := w.store.map (fun o => if o.id = id then b else o) }

/-- GameWorld.currentPlayer. -/
def currentPlayer (w : GameWorld) : Player := w.players w.currentPlayerIndex

/-- GameWorld.nextPlayer: `players[(index + 1) % players.length]`. -/
def nextPlayer (w : GameWorld) : Player := w.players (w.currentPlayerIndex + 1)

/-- Replace one player record. -/
def setPlayer (w : GameWorld) (i : Fin 2) (p : Player) : GameWorld :=
  { w with players := Function.update w.players i p }

/-- GameWorld.getBallsByColor: the `_balls` references whose ball has the
given color. -/
def getBallsByColor (w : GameWorld) (c : Color) : List ℕ :=
  w.balls.filter (fun id => decide ((getBall w id).color = c))

/-- GameWorld.isBallsMoving: some ball in play is moving. -/
def isBallsMoving (w : GameWorld) : Prop :=
  ∃ id ∈ w.balls, (getBall w id).moving = true

instance (w : GameWorld) : Decidable (isBallsMoving w) :=
  inferInstanceAs (Decidable (∃ id ∈ w.balls, _))

/-- GameWorld.isGameOver (the getter): delegates to the referee with the
current player, the cue ball reference and the eight ball reference. -/
def worldIsGameOver (w : GameWorld) : Bool :=
  Referee.isGameOver (currentPlayer w) (getBall w w.cueBallId) (getBall w w.eightBallId)

/-- GameWorld.isInsidePocket: the position is within pocket radius of some
configured pocket center (inclusive). -/
noncomputable def isInsidePocket (cfg : Config) (position : Vector2) : Prop :=
  ∃ p ∈ cfg.pocketsPositions, position.distFrom p ≤ cfg.pocketRadius

noncomputable instance (cfg : Config) (position : Vector2) :
    Decidable (isInsidePocket cfg position) :=
  inferInstanceAs (Decidable (∃ p ∈ cfg.pocketsPositions, _))

/-- GameWorld.resolveBallInPocket: hide a ball whose position is inside a
pocket. -/
noncomputable def resolveBallInPocket (cfg : Config) (ball : Ball) : Ball :=
  if isInsidePocket cfg ball.pos then ball.hide else ball

/-- GameWorld.isValidPlayerColor: red or yellow. -/
def isValidPlayerColor (c : Color) : Prop := c = Color.red ∨ c = Color.yellow

instance (c : Color) : Decidable (isValidPlayerColor c) :=
  inferInstanceAs (Decidable (_ ∨ _))

/-- One iteration of the GameWorld.handleBallsInPockets forEach body, for
the ball referenced by `id`: resolve pocket containment, then, if the
ball is hidden and not yet recorded, assign colors on a first
red/yellow pocket by a colorless current player and record the ball. -/
noncomputable def pocketStep (cfg : Config) (w : GameWorld) (id : ℕ) : GameWorld :=
  let b := resolveBallInPocket cfg (getBall w id)
  let w1 := setBall w id b
  if b.visible = false ∧ id ∉ w1.turnState.pocketedBalls then
    let w2 :=
      if (currentPlayer w1).color = none ∧ isValidPlayerColor b.color then
        let wa := setPlayer w1 w1.currentPlayerIndex
          { currentPlayer w1 with color := some b.color }
        setPlayer wa (wa.currentPlayerIndex + 1)
          { nextPlayer wa with
            color := some (if b.color = Color.yellow then Color.red else Color.yellow) }
      else w1
    { w2 with turnState :=
        { w2.turnState with pocketedBalls := w2.turnState.pocketedBalls ++ [id] } }
  else w1

/-- GameWorld.handleBallsInPockets (game-world.ts lines 714-726): the
forEach over the `_balls` array. -/
noncomputable def handleBallsInPockets (cfg : Config) (w : GameWorld) : GameWorld :=
  w.balls.foldl (pocketStep cfg) w

/-- GameWorld.isInsideTableBoundaries: not in a pocket and not outside any
of the four borders. -/
noncomputable def isInsideTableBoundaries (cfg : Config) (position : Vector2) : Prop :=
  ¬ isInsidePocket cfg position ∧
  ¬ isBallPosOutsideTopBorder cfg position ∧
  ¬ isBallPosOutsideLeftBorder cfg position ∧
  ¬ isBallPosOutsideRightBorder cfg position ∧
  ¬ isBallPosOutsideBottomBorder cfg position

noncomputable instance (cfg : Config) (position : Vector2) :
    Decidable (isInsideTableBoundaries cfg position) :=
  inferInstanceAs (Decidable (_ ∧ _))

/-- GameWorld.isValidPosToPlaceCueBall (game-world.ts lines 900-907): every
ball in play is either white or farther than one diameter from the
position, and the position is inside the table boundaries. -/
noncomputable def isValidPosToPlaceCueBall (cfg : Config) (w : GameWorld)
    (position : Vector2) : Prop :=
  (∀ id ∈ w.balls,
      (getBall w id).color = Color.white ∨
      (getBall w id).pos.distFrom position > cfg.diameter) ∧
  isInsideTableBoundaries cfg position

noncomputable instance (cfg : Config) (w : GameWorld) (position : Vector2) :
    Decidable (isValidPosToPlaceCueBall cfg w position) :=
  inferInstanceAs (Decidable (_ ∧ _))

/-- GameWorld.placeBallInHand (game-world.ts lines 914-918): set the cue
ball position, clear the ball-in-hand flag, show the stick at the cue
ball. -/
noncomputable def placeBallInHand (cfg : Config) (w : GameWorld) (position : Vector2) :
    GameWorld :=
  let w1 := setBall w w.cueBallId { getBall w w.cueBallId with pos := position }
  let w2 := { w1 with turnState := { w1.turnState with ballInHand := false } }
  { w2 with stick := Stick.show cfg w2.stick (getBall w2 w2.cueBallId).pos }

/-- GameWorld.handleBallInHand (game-world.ts lines 731-741): on a press at
a valid position, commit the placement; otherwise hide the stick and let
the cue ball track the mouse position. -/
noncomputable def handleBallInHand (cfg : Config) (input : Input) (w : GameWorld) :
    GameWorld :=
  if input.placePressed = true ∧ isValidPosToPlaceCueBall cfg w input.mousePos then
    placeBallInHand cfg w input.mousePos
  else
    let w1 := { w with stick := { w.stick with movable := false, visible := false } }
    setBall w1 w1.cueBallId { getBall w1 w1.cueBallId with pos := input.mousePos }

end EightBall

namespace EightBall

/-- GameWorld.concludeTurn (game-world.ts lines 923-941): splice the
pocketed non-white balls out of play, recompute the match scores of
players that have an assigned color, and store the referee's verdict in
the turn state. -/
noncomputable def concludeTurn (w : GameWorld) : GameWorld :=
  let w1 := w.turnState.pocketedBalls.foldl
    (fun wa id =>
      if (getBall wa id).color ≠ Color.white then { wa with balls := wa.balls.erase id }
      else wa) w
  let w2 :=
    match (currentPlayer w1).color with
    | some c =>
      setPlayer w1 w1.currentPlayerIndex
        { currentPlayer w1 with matchScore :=
            8 - ((getBallsByColor w1 c).length : ℤ) -
              ((getBallsByColor w1 Color.black).length : ℤ) }
    | none => w1
  let w3 :=
    match (nextPlayer w2).color with
    | some c =>
      setPlayer w2 (w2.currentPlayerIndex + 1)
        { nextPlayer w2 with matchScore :=
            8 - ((getBallsByColor w2 c).length : ℤ) -
              ((getBallsByColor w2 Color.black).length : ℤ) }
    | none => w2
  let verdict := Referee.isValidTurn (currentPlayer w3)
    w3.turnState.firstCollidedBallColor (w3.turnState.pocketedBalls.map (getBall w3))
  { w3 with turnState := { w3.turnState with isValid := verdict } }

/-- GameWorld.initMatch (game-world.ts lines 859-892): build the rack (the
source maps the red layout positions to yellow-colored balls and the
yellow layout positions to red-colored balls), the eight ball, the cue
ball and the stick; reset the match scores, colors, player index and
turn state.  Overall scores persist.  Ids 0..15 model the fresh object
references, in the `_balls` array order.  The AI session hand-off that
may follow is an external collaborator. -/
noncomputable def initMatch (cfg : Config) (w : GameWorld) : GameWorld :=
  let redBalls := cfg.redBallsPositions.enum.map
    (fun pr => ({ id := pr.1, pos := pr.2, vel := Vector2.zero, moving := false,
                  visible := true, color := Color.yellow } : Ball))
  let yellowBalls := cfg.yellowBallsPositions.enum.map
    (fun pr => ({ id := 7 + pr.1, pos := pr.2, vel := Vector2.zero, moving := false,
                  visible := true, color := Color.red } : Ball))
  let eightBall : Ball :=
    { id := 14, pos := cfg.eightBallPosition, vel := Vector2.zero, moving := false,
      visible := true, color := Color.black }
  let cueBall : Ball :=
    { id := 15, pos := cfg.cueBallPosition, vel := Vector2.zero, moving := false,
      visible := true, color := Color.white }
  let allBalls := redBalls ++ yellowBalls ++ [eightBall, cueBall]
  { stick := { position := cfg.cueBallPosition, origin := cfg.stickOrigin, rotation := 0,
               power := 0, movable := true, visible := true }
    store := allBalls
    balls := allBalls.map (fun b => b.id)
    cueBallId := 15
    eightBallId := 14
    players := fun i => { w.players i with matchScore := 0, color := none }
    currentPlayerIndex := 0
    turnState := TurnState.init }

/-- GameWorld.handleGameOver (game-world.ts lines 746-754): the winner's
overall score increments (the current player on a valid turn, the other
player otherwise), then a new match starts. -/
noncomputable def handleGameOver (cfg : Config) (w : GameWorld) : GameWorld :=
  let w1 :=
    if w.turnState.isValid = true then
      setPlayer w w.currentPlayerIndex
        { currentPlayer w with overallScore := (currentPlayer w).overallScore + 1 }
    else
      setPlayer w (w.currentPlayerIndex + 1)
        { nextPlayer w with overallScore := (nextPlayer w).overallScore + 1 }
  initMatch cfg w1

/-- GameWorld.nextTurn (game-world.ts lines 759-785): on game over, hand
the match result off; otherwise re-show a pocketed cue ball at the
default spot, advance the player on a foul or a pocketless turn, show
the stick at the cue ball, and create a fresh turn state whose
ball-in-hand flag records the foul.  The AI session hand-off that may
follow (when the new current player is the AI) is an external
collaborator and is not part of this step. -/
noncomputable def nextTurn (cfg : Config) (w : GameWorld) : GameWorld :=
  let foul := !w.turnState.isValid
  if worldIsGameOver w = true then handleGameOver cfg w
  else
    let w1 :=
      if (getBall w w.cueBallId).visible = false then
        setBall w w.cueBallId ((getBall w w.cueBallId).show cfg.cueBallPosition)
      else w
    let w2 :=
      if foul = true ∨ w1.turnState.pocketedBalls.length = 0 then
        { w1 with currentPlayerIndex := w1.currentPlayerIndex + 1 }
      else w1
    let w3 := { w2 with stick := Stick.show cfg w2.stick (getBall w2 w2.cueBallId).pos }
    { w3 with turnState := { TurnState.init with ballInHand := foul } }

/-- GameWorld.shootCueBall (game-world.ts lines 949-957): ignored for
non-positive power; otherwise aim the stick, run Stick.shoot (which
moves the stick origin to the shot origin; the strike sound is
external), shoot the cue ball, and freeze the stick.  The deferred
Stick.hide runs on an external setTimeout, modeled by
`stickHideTimer`. -/
noncomputable def shootCueBall (cfg : Config) (w : GameWorld) (power rotation : ℝ) :
    GameWorld :=
  if power > 0 then
    let w1 := { w with stick :=
      { w.stick with rotation := rotation, origin := cfg.stickShotOrigin } }
    let w2 := setBall w1 w1.cueBallId ((getBall w1 w1.cueBallId).shoot power rotation)
    { w2 with stick := { w2.stick with movable := false } }
  else w

/-- The external timer event scheduled by shootCueBall: hide the stick. -/
def stickHideTimer (w : GameWorld) : GameWorld := { w with stick := w.stick.hide }

/-- GameWorld.handleInput: shoot the cue ball with the stick's power and
rotation when the shoot button is pressed (the AI.finishedSession gate
is external: `shootPressed` models a press while no AI search runs). -/
noncomputable def handleInput (cfg : Config) (input : Input) (w : GameWorld) : GameWorld :=
  if input.shootPressed = true then shootCueBall cfg w w.stick.power w.stick.rotation else w

/-- The inner-loop body of GameWorld.handleCollisions for the pair of array
slots (i, j): resolve the pair, and on a collision record the first
collided ball color (the non-white color of the pair) if none has been
recorded this turn.  The collision sound is external. -/
noncomputable def collidePairStep (cfg : Config) (w : GameWorld) (i j : ℕ) : GameWorld :=
  match w.balls.get? i, w.balls.get? j with
  | some idi, some idj =>
    let r := resolveBallsCollision cfg (getBall w idi) (getBall w idj)
    let w1 := setBall (setBall w idi r.1) idj r.2.1
    let c := if r.1.color = Color.white then r.2.1.color else r.1.color
    if r.2.2 = true ∧ w1.turnState.firstCollidedBallColor = none then
      { w1 with turnState := { w1.turnState with firstCollidedBallColor := some c } }
    else w1
  | _, _ => w

/-- GameWorld.handleCollisions (game-world.ts lines 653-675): for each ball
resolve its cushion collision, then resolve its collisions against every
later ball in the array. -/
noncomputable def handleCollisions (cfg : Config) (w : GameWorld) : GameWorld :=
  (List.range w.balls.length).foldl
    (fun wi i =>
      let wc :=
        match wi.balls.get? i with
        | some id => setBall wi id (resolveBallCollisionWithCushion cfg (getBall wi id))
        | none => wi
      (List.range' (i + 1) (wc.balls.length - (i + 1))).foldl
        (fun wj j => collidePairStep cfg wj i j) wc)
    w

/-- GameWorld.update (game-world.ts lines 963-980): with ball in hand, only
handleBallInHand runs and the tick returns early; otherwise pockets,
collisions, input and the stick are handled, every ball integrates one
tick, and once nothing moves and the stick is hidden the turn is
concluded and handed to nextTurn. -/
noncomputable def update (cfg : Config) (input : Input) (w : GameWorld) : GameWorld :=
  if w.turnState.ballInHand = true then handleBallInHand cfg input w
  else
    let w1 := handleBallsInPockets cfg w
    let w2 := handleCollisions cfg w1
    let w3 := handleInput cfg input w2
    let w4 := { w3 with stick := Stick.updateFromInput input w3.stick }
    let w5 := w4.balls.foldl (fun wa id => setBall wa id (Ball.update cfg (getBall wa id))) w4
    if ¬ isBallsMoving w5 ∧ w5.stick.visible = false then nextTurn cfg (concludeTurn w5)
    else w5

end EightBall

namespace EightBall

namespace JS

/-- A JavaScript double restricted to the values reachable by the exact
arithmetic in this development: a finite (rational) value, the two
infinities, or NaN.  This small model captures the IEEE special-value
propagation that the real-number embedding cannot express (JavaScript
numbers are IEEE-754 doubles; the inputs analysed here stay exact, so a
rational payload is faithful for them). -/
inductive N
| fin (q : ℚ)
| inf
| ninf
| nan
deriving DecidableEq

/-- IEEE addition on the modeled values. -/
def N.add : N → N → N
  | N.nan, _ => N.nan
  | _, N.nan => N.nan
  | N.inf, N.ninf => N.nan
  | N.ninf, N.inf => N.nan
  | N.inf, _ => N.inf
  | _, N.inf => N.inf
  | N.ninf, _ => N.ninf
  | _, N.ninf => N.ninf
  | N.fin a, N.fin b => N.fin (a + b)

/-- IEEE negation. -/
def N.neg : N → N
  | N.nan => N.nan
  | N.inf => N.ninf
  | N.ninf => N.inf
  | N.fin a => N.fin (-a)

/-- IEEE subtraction. -/
def N.sub (a b : N) : N := N.add a (N.neg b)

/-- IEEE multiplication on the modeled values; `0 * Infinity` is NaN. -/
def N.mul : N → N → N
  | N.nan, _ => N.nan
  | _, N.nan => N.nan
  | N.inf, N.inf => N.inf
  | N.inf, N.ninf => N.ninf
  | N.ninf, N.inf => N.ninf
  | N.ninf, N.ninf => N.inf
  | N.inf, N.fin b => if b = 0 then N.nan else if 0 < b then N.inf else N.ninf
  | N.fin a, N.inf => if a = 0 then N.nan else if 0 < a then N.inf else N.ninf
  | N.ninf, N.fin b => if b = 0 then N.nan else if 0 < b then N.ninf else N.inf
  | N.fin a, N.ninf => if a = 0 then N.nan else if 0 < a then N.ninf else N.inf
  | N.fin a, N.fin b => N.fin (a * b)

/-- IEEE division on the modeled values; a positive finite value divided by
(positive) zero is +Infinity, which is how `(diameter - 0) / 0` behaves
in JavaScript. -/
def N.div : N → N → N
  | N.nan, _ => N.nan
  | _, N.nan => N.nan
  | N.inf, N.inf => N.nan
  | N.inf, N.ninf => N.nan
  | N.ninf, N.inf => N.nan
  | N.ninf, N.ninf => N.nan
  | N.inf, N.fin b => if 0 ≤ b then N.inf else N.ninf
  | N.ninf, N.fin b => if 0 ≤ b then N.ninf else N.inf
  | N.fin _, N.inf => N.fin 0
  | N.fin _, N.ninf => N.fin 0
  | N.fin a, N.fin b =>
    if b = 0 then (if a = 0 then N.nan else if 0 < a then N.inf else N.ninf)
    else N.fin (a / b)

/-- IEEE `>` comparison: any comparison involving NaN is false. -/
def N.gt : N → N → Bool
  | N.nan, _ => false
  | _, N.nan => false
  | N.inf, N.inf => false
  | N.inf, _ => true
  | _, N.inf => false
  | N.ninf, _ => false
  | _, N.ninf => true
  | N.fin a, N.fin b => decide (b < a)

/-- A 2D vector over the JavaScript number model. -/
structure Vec where
  x : N
  y : N
deriving DecidableEq

/-- Vector2.add over the JavaScript number model. -/
def Vec.add (v w : Vec) : Vec := ⟨N.add v.x w.x, N.add v.y w.y⟩

/-- Vector2.subtract over the JavaScript number model. -/
def Vec.sub (v w : Vec) : Vec := ⟨N.sub v.x w.x, N.sub v.y w.y⟩

/-- Vector2.mult over the JavaScript number model. -/
def Vec.mult (v : Vec) (c : N) : Vec := ⟨N.mul v.x c, N.mul v.y c⟩

/-- Vector2.dot over the JavaScript number model. -/
def Vec.dot (v w : Vec) : N := N.add (N.mul v.x w.x) (N.mul v.y w.y)

/-- Vector2.length over the JavaScript number model, parameterized by the
square-root primitive (Math.sqrt).  All uses below only rely on
`Math.sqrt(0) = 0`. -/
def Vec.length (sqrt : N → N) (v : Vec) : N :=
  sqrt (N.add (N.mul v.x v.x) (N.mul v.y v.y))

/-- A ball as seen by resolveBallsCollision, over the JavaScript number
model. -/
structure BallV where
  pos : Vec
  vel : Vec
  moving : Bool
  visible : Bool
deriving DecidableEq

/-- The Ball velocity setter over the JavaScript number model: `moving`
becomes `value.length > 0`. -/
def BallV.setVelocity (sqrt : N → N) (b : BallV) (v : Vec) : BallV :=
  { b with vel := v, moving := N.gt (Vec.length sqrt v) (N.fin 0) }

/-- GameWorld.resolveBallsCollision transcribed over the JavaScript number
model (game-world.ts lines 598-647), parameterized by Math.sqrt and the
configured diameter and collision loss.  This is the same code path as
`resolveBallsCollision`, kept in IEEE semantics to analyse the
degenerate zero-distance geometry. -/
def resolveBallsCollisionJS (sqrt : N → N) (diameter collisionLoss : N)
    (first second : BallV) : BallV × BallV × Bool :=
  if first.visible = false ∨ second.visible = false then (first, second, false)
  else
    let n := first.pos.sub second.pos
    let dist := Vec.length sqrt n
    if N.gt dist diameter then (first, second, false)
    else
      let mtd := n.mult (N.div (N.sub diameter dist) dist)
      let first1 := { first with pos := first.pos.add (mtd.mult (N.fin (1/2))) }
      let second1 := { second with pos := second.pos.sub (mtd.mult (N.fin (1/2))) }
      let un := n.mult (N.div (N.fin 1) (Vec.length sqrt n))
      let ut : Vec := ⟨N.neg un.y, un.x⟩
      let v1n := un.dot first1.vel
      let v1t := ut.dot first1.vel
      let v2n := un.dot second1.vel
      let v2t := ut.dot second1.vel
      let first2 := first1.setVelocity sqrt ((un.mult v2n).add (ut.mult v1t))
      let second2 := second1.setVelocity sqrt ((un.mult v1n).add (ut.mult v2t))
      let first3 := first2.setVelocity sqrt (first2.vel.mult (N.sub (N.fin 1) collisionLoss))
      let second3 := second2.setVelocity sqrt (second2.vel.mult (N.sub (N.fin 1) collisionLoss))
      (first3, second3, true)

end JS

/-- An AI candidate shot (ai/ai-opponent.ts): power, rotation angle and the
evaluation measured for it.  The numeric payloads are modeled as exact
rationals; only their ordering matters for candidate tracking. -/
structure AIOpponent where
  power : ℚ
  rotation : ℚ
  evaluation : ℚ
deriving DecidableEq

/-- The best-candidate tracking step of AITrainer.train (ai/ai-trainer.ts
lines 239-241): the recorded best is replaced exactly when the newly
evaluated candidate scores strictly higher. -/
def trainBestStep (best current : AIOpponent) : AIOpponent :=
  if best.evaluation < current.evaluation then current else best

/-- The best candidate recorded after the first `n` iterations of one
optimizer run, given the initial candidate (which AITrainer.init records
as the initial best) and the per-iteration evaluated candidates.  The
evaluated candidates are inputs here: each is produced by a full forward
simulation with ambient randomness, which is outside the deterministic
core. -/
def bestAfter (init : AIOpponent) (evaluated : List AIOpponent) (n : ℕ) : AIOpponent :=
  (evaluated.take n).foldl trainBestStep init

end EightBall

namespace EightBall

lemma Vector2.length_nonneg (v : Vector2) : 0 ≤ v.length := Real.sqrt_nonneg _

lemma Vector2.sq_length (v : Vector2) : v.length ^ 2 = v.x ^ 2 + v.y ^ 2 :=
  Real.sq_sqrt (by positivity)

lemma Vector2.length_mult (v : Vector2) (c : ℝ) : (v.mult c).length = |c| * v.length := by
  unfold Vector2.length Vector2.mult
  rw [show (v.x * c) ^ 2 + (v.y * c) ^ 2 = c ^ 2 * (v.x ^ 2 + v.y ^ 2) by ring,
    Real.sqrt_mul (sq_nonneg c), Real.sqrt_sq_eq_abs]

lemma Vector2.length_pos (v : Vector2) (h : v.x ^ 2 + v.y ^ 2 ≠ 0) : 0 < v.length :=
  Real.sqrt_pos.2 (lt_of_le_of_ne (by positivity) (Ne.symm h))

lemma sqrt_le_of_sq_le {a b : ℝ} (hb : 0 ≤ b) (h : a ≤ b ^ 2) : Real.sqrt a ≤ b := by
  calc Real.sqrt a ≤ Real.sqrt (b ^ 2) := Real.sqrt_le_sqrt h
  _ = b := by rw [Real.sqrt_sq hb]

lemma lt_sqrt_of_sq_lt {a b : ℝ} (hb : 0 ≤ b) (h : b ^ 2 < a) : b < Real.sqrt a := by
  have ha : 0 ≤ a := le_trans (sq_nonneg b) (le_of_lt h)
  exact (Real.lt_sqrt hb).2 h

lemma sqrt_eq_of_sq {a b : ℝ} (hb : 0 ≤ b) (h : a = b ^ 2) : Real.sqrt a = b := by
  rw [h, Real.sqrt_sq hb]

/-- The first-touch rule exactly as claim C1 words it (for comparison with
the source rule): no collision is invalid; a colorless player must not
touch black first; otherwise the touch is valid on a color match, or at
match score 1 with a pocket this turn (with no restriction on touching
black), or at match score 7 or 8 when black is touched. -/
def claimedIsValidFirstTouch (player : Player) (collidedBallColor : Option Color)
    (somePocketed : Bool) : Bool :=
  match collidedBallColor with
  | none => false
  | some c =>
    match player.color with
    | none => decide (c ≠ Color.black)
    | some pc =>
      decide (pc = c) ||
      (decide (player.matchScore = 1) && somePocketed) ||
      ((decide (player.matchScore = 7) || decide (player.matchScore = 8)) &&
        decide (c = Color.black))

/-- Claim C1, counterexample: a red-assigned player at match score 1 who
pocketed something this turn but touched the black ball first.  The
claim's rule accepts the touch, but the source's isValidFirstTouch
rejects it: the source's match-score-1 disjunct additionally requires
that the touched ball is not black. -/
theorem c1_firstTouch_counterexample :
    Referee.isValidFirstTouch ⟨some Color.red, 1, 0⟩ (some Color.black) true = false ∧
    claimedIsValidFirstTouch ⟨some Color.red, 1, 0⟩ (some Color.black) true = true := by
  constructor <;> rfl

/-- Claim C1, amended: the referee's first-touch check returns invalid when
no ball-ball collision occurred; for a colorless player it is valid
exactly when the first ball touched is not black; otherwise it is valid
exactly when the touched color matches the assigned color, or the
player's match score is 1 and something was pocketed this turn and the
touched ball is not black, or the match score is 7 or 8 and the touched
ball is black. -/
theorem c1_firstTouch_amended (player : Player) (collidedBallColor : Option Color)
    (somePocketed : Bool) :
    Referee.isValidFirstTouch player collidedBallColor somePocketed = true ↔
      ∃ c, collidedBallColor = some c ∧
        (match player.color with
         | none => c ≠ Color.black
         | some pc =>
           pc = c ∨
           (player.matchScore = 1 ∧ somePocketed = true ∧ c ≠ Color.black) ∨
           ((player.matchScore = 7 ∨ player.matchScore = 8) ∧ c = Color.black)) := by
  cases collidedBallColor with
  | none => simp [Referee.isValidFirstTouch]
  | some c =>
    cases hpc : player.color with
    | none => simp [Referee.isValidFirstTouch, hpc]
    | some pc =>
      simp only [Referee.isValidFirstTouch, hpc, Option.some.injEq, exists_eq_left',
        Bool.or_eq_true, Bool.and_eq_true, decide_eq_true_eq]
      tauto

end EightBall

namespace EightBall

lemma evaluation_le_foldl (l : List AIOpponent) (b : AIOpponent) :
    b.evaluation ≤ (l.foldl trainBestStep b).evaluation := by
  induction l generalizing b with
  | nil => simp
  | cons hd tl ih =>
    refine le_trans ?_ (ih (trainBestStep b hd))
    unfold trainBestStep
    split_ifs with h
    · exact le_of_lt h
    · exact le_refl _

/-- Claim C9: within a single optimizer run the recorded best candidate's
evaluation is monotonically non-decreasing across iterations, and the
recorded best is replaced only by a newly evaluated candidate whose
evaluation is strictly greater (in which case it becomes that
candidate). -/
theorem c9_optimizer_monotone :
    (∀ (init : AIOpponent) (evaluated : List AIOpponent) (n m : ℕ), n ≤ m →
      (bestAfter init evaluated n).evaluation ≤ (bestAfter init evaluated m).evaluation) ∧
    (∀ best current : AIOpponent, trainBestStep best current ≠ best →
      best.evaluation < current.evaluation ∧ trainBestStep best current = current) := by
  constructor
  · intro init evaluated n m hnm
    unfold bestAfter
    rw [show m = n + (m - n) by omega, List.take_add, List.foldl_append]
    exact evaluation_le_foldl _ _
  · intro best current h
    unfold trainBestStep at h ⊢
    split_ifs at h ⊢ with hlt
    · exact ⟨hlt, rfl⟩
    · exact absurd rfl h

/-- Witness for claim C9 at a concrete run: initial candidate with
evaluation 1, then evaluated candidates scoring 5, 2 and 7; the best
evaluation after 2 iterations is at most the one after 3. -/
theorem c9_optimizer_witness :
    2 ≤ 3 ∧
    (bestAfter ⟨50, 0, 1⟩ [⟨10, 0, 5⟩, ⟨20, 0, 2⟩, ⟨30, 0, 7⟩] 2).evaluation ≤
      (bestAfter ⟨50, 0, 1⟩ [⟨10, 0, 5⟩, ⟨20, 0, 2⟩, ⟨30, 0, 7⟩] 3).evaluation :=
  ⟨by norm_num, c9_optimizer_monotone.1 ⟨50, 0, 1⟩ [⟨10, 0, 5⟩, ⟨20, 0, 2⟩, ⟨30, 0, 7⟩] 2 3
    (by norm_num)⟩

/-- Claim C5: one tick of Ball.update on a moving ball first scales the
velocity by (1 - friction) and advances the position by that
already-scaled velocity; if the scaled speed is below the minimum
threshold the velocity becomes exactly zero and moving becomes false;
while at or above the threshold the speed strictly decreases; and a
stopped (non-moving) ball is left completely unchanged by further
ticks. -/
theorem c5_friction_spec (b : Ball) :
    (b.moving = true →
      (Ball.update gameConfig b).pos = b.pos.add (b.vel.mult (1 - gameConfig.friction)) ∧
      ((b.vel.mult (1 - gameConfig.friction)).length < gameConfig.minVelocityLength →
        (Ball.update gameConfig b).vel = Vector2.zero ∧
        (Ball.update gameConfig b).moving = false) ∧
      (gameConfig.minVelocityLength ≤ (b.vel.mult (1 - gameConfig.friction)).length →
        (Ball.update gameConfig b).vel = b.vel.mult (1 - gameConfig.friction) ∧
        (Ball.update gameConfig b).moving = true ∧
        (Ball.update gameConfig b).vel.length < b.vel.length)) ∧
    (b.moving = false → Ball.update gameConfig b = b) := by
  constructor
  · intro hm
    unfold Ball.update
    simp only [hm, if_true]
    have hfr : (1 : ℝ) - gameConfig.friction = 0.982 := by norm_num [gameConfig]
    refine ⟨?_, ?_, ?_⟩
    · split_ifs <;> rfl
    · intro hlt
      rw [if_pos hlt]
      exact ⟨rfl, rfl⟩
    · intro hge
      rw [if_neg (not_lt.2 hge)]
      refine ⟨rfl, hm ▸ rfl, ?_⟩
      have hlen : (b.vel.mult (1 - gameConfig.friction)).length =
          |(1 : ℝ) - gameConfig.friction| * b.vel.length := Vector2.length_mult _ _
      have hpos : 0 < b.vel.length := by
        by_contra hc
        push_neg at hc
        have h0 : b.vel.length = 0 := le_antisymm hc (Vector2.length_nonneg _)
        rw [hlen, h0, mul_zero] at hge
        norm_num [gameConfig] at hge
      calc (b.vel.mult (1 - gameConfig.friction)).length
          = |(1 : ℝ) - gameConfig.friction| * b.vel.length := hlen
        _ = 0.982 * b.vel.length := by rw [hfr]; norm_num
        _ < 1 * b.vel.length := by nlinarith
        _ = b.vel.length := one_mul _
  · intro hm
    unfold Ball.update
    simp [hm]

/-- Witness for claim C5: a moving ball with velocity (5, 0); the scaled
speed 4.91 stays above the 0.05 threshold, so the tick advances the
position by (4.91, 0) and strictly decreases the speed. -/
theorem c5_friction_witness :
    (⟨0, ⟨100, 100⟩, ⟨5, 0⟩, true, true, Color.white⟩ : Ball).moving = true ∧
    gameConfig.minVelocityLength ≤
      ((⟨0, ⟨100, 100⟩, ⟨5, 0⟩, true, true, Color.white⟩ : Ball).vel.mult
        (1 - gameConfig.friction)).length ∧
    (Ball.update gameConfig ⟨0, ⟨100, 100⟩, ⟨5, 0⟩, true, true, Color.white⟩).vel.length <
      (⟨5, 0⟩ : Vector2).length := by
  have hb : (⟨0, ⟨100, 100⟩, ⟨5, 0⟩, true, true, Color.white⟩ : Ball).moving = true := rfl
  have hlen : ((⟨5, 0⟩ : Vector2).mult (1 - gameConfig.friction)).length = 4.91 := by
    rw [Vector2.length_mult]
    have h5 : (⟨5, 0⟩ : Vector2).length = 5 := by
      unfold Vector2.length
      exact sqrt_eq_of_sq (by norm_num) (by norm_num)
    rw [h5, show |(1 : ℝ) - gameConfig.friction| = 1 - gameConfig.friction from
      abs_of_nonneg (by norm_num [gameConfig])]
    norm_num [gameConfig]
  have hge : gameConfig.minVelocityLength ≤
      ((⟨5, 0⟩ : Vector2).mult (1 - gameConfig.friction)).length := by
    rw [hlen]; norm_num [gameConfig]
  exact ⟨hb, hge, (((c5_friction_spec _).1 hb).2.2 hge).2.2⟩

end EightBall


namespace EightBall

lemma Vector2.dot_mult_right (a b : Vector2) (c : ℝ) : a.dot (b.mult c) = c * a.dot b := by
  simp only [Vector2.dot, Vector2.mult]
  ring

lemma Vector2.dot_add_right (a b c : Vector2) : a.dot (b.add c) = a.dot b + a.dot c := by
  simp only [Vector2.dot, Vector2.add]
  ring

lemma Vector2.mult_mult (v : Vector2) (a b : ℝ) : (v.mult a).mult b = v.mult (a * b) := by
  simp only [Vector2.mult, Vector2.mk.injEq]
  constructor <;> ring


lemma normal_exchange_dot (u t v w : Vector2) (k : ℝ)
    (hUU : u.dot u = 1) (hUT : u.dot t = 0) :
    u.dot (((u.mult (u.dot w)).add (t.mult (t.dot v))).mult k) = k * u.dot w := by
  rw [Vector2.dot_mult_right, Vector2.dot_add_right, Vector2.dot_mult_right,
    Vector2.dot_mult_right, hUU, hUT]
  ring

lemma tangent_keep_dot (u t v w : Vector2) (k : ℝ)
    (hTU : t.dot u = 0) (hTT : t.dot t = 1) :
    t.dot (((u.mult (u.dot w)).add (t.mult (t.dot v))).mult k) = k * t.dot v := by
  rw [Vector2.dot_mult_right, Vector2.dot_add_right, Vector2.dot_mult_right,
    Vector2.dot_mult_right, hTU, hTT]
  ring

/-- Claim C2: for two visible balls whose centers are at a positive
distance of at most one ball diameter, the resolver reports a collision,
pushes each ball apart along the center-to-center normal
`n = posA - posB` by half the penetration depth
`(diameter - dist) / 2`, exchanges the two balls' normal velocity
components while keeping their tangential components, and scales both
resulting velocities by (1 - collisionLoss): in the unit-normal /
unit-tangent frame used by the source, the first ball's outgoing normal
component is (1 - loss) times the second ball's incoming one and vice
versa, while each outgoing tangential component is (1 - loss) times the
same ball's incoming one. -/
theorem c2_ballCollision_spec (cfg : Config) (f s : Ball)
    (hf : f.visible = true) (hs : s.visible = true)
    (hpos : 0 < (f.pos.subtract s.pos).length)
    (hle : (f.pos.subtract s.pos).length ≤ cfg.diameter) :
    (resolveBallsCollision cfg f s).2.2 = true ∧
    (resolveBallsCollision cfg f s).1.pos =
      f.pos.add ((f.pos.subtract s.pos).mult
        ((cfg.diameter - (f.pos.subtract s.pos).length) /
          (2 * (f.pos.subtract s.pos).length))) ∧
    (resolveBallsCollision cfg f s).2.1.pos =
      s.pos.subtract ((f.pos.subtract s.pos).mult
        ((cfg.diameter - (f.pos.subtract s.pos).length) /
          (2 * (f.pos.subtract s.pos).length))) ∧
    ((resolveBallsCollision cfg f s).1.pos.subtract f.pos).length =
      (cfg.diameter - (f.pos.subtract s.pos).length) / 2 ∧
    ((f.pos.subtract s.pos).mult (1 / (f.pos.subtract s.pos).length)).dot
        (resolveBallsCollision cfg f s).1.vel =
      (1 - cfg.collisionLoss) *
        (((f.pos.subtract s.pos).mult (1 / (f.pos.subtract s.pos).length)).dot s.vel) ∧
    ((f.pos.subtract s.pos).mult (1 / (f.pos.subtract s.pos).length)).dot
        (resolveBallsCollision cfg f s).2.1.vel =
      (1 - cfg.collisionLoss) *
        (((f.pos.subtract s.pos).mult (1 / (f.pos.subtract s.pos).length)).dot f.vel) ∧
    (Vector2.mk (-((f.pos.subtract s.pos).mult (1 / (f.pos.subtract s.pos).length)).y)
        ((f.pos.subtract s.pos).mult (1 / (f.pos.subtract s.pos).length)).x).dot
        (resolveBallsCollision cfg f s).1.vel =
      (1 - cfg.collisionLoss) *
        ((Vector2.mk (-((f.pos.subtract s.pos).mult (1 / (f.pos.subtract s.pos).length)).y)
          ((f.pos.subtract s.pos).mult (1 / (f.pos.subtract s.pos).length)).x).dot f.vel) ∧
    (Vector2.mk (-((f.pos.subtract s.pos).mult (1 / (f.pos.subtract s.pos).length)).y)
        ((f.pos.subtract s.pos).mult (1 / (f.pos.subtract s.pos).length)).x).dot
        (resolveBallsCollision cfg f s).2.1.vel =
      (1 - cfg.collisionLoss) *
        ((Vector2.mk (-((f.pos.subtract s.pos).mult (1 / (f.pos.subtract s.pos).length)).y)
          ((f.pos.subtract s.pos).mult (1 / (f.pos.subtract s.pos).length)).x).dot s.vel) := by
  have hvis : ¬ (f.visible = false ∨ s.visible = false) := by simp [hf, hs]
  set n := f.pos.subtract s.pos with hn
  set L := n.length with hL
  have hngt : ¬ (L > cfg.diameter) := not_lt.2 hle
  have hL0 : L ≠ 0 := ne_of_gt hpos
  have hL2 : L ^ 2 = n.x ^ 2 + n.y ^ 2 := Vector2.sq_length n
  set u := n.mult (1 / L) with hu
  set t : Vector2 := ⟨-u.y, u.x⟩ with ht
  have hUU : u.dot u = 1 := by
    rw [hu]
    simp only [Vector2.dot, Vector2.mult]
    field_simp
    linarith [hL2]
  have hUT : u.dot t = 0 := by
    rw [ht]
    simp only [Vector2.dot]
    ring
  have hTU : t.dot u = 0 := by
    rw [ht]
    simp only [Vector2.dot]
    ring
  have hTT : t.dot t = 1 := by
    rw [ht]
    simp only [Vector2.dot]
    have huu : u.y * u.y + u.x * u.x = u.dot u := by
      simp only [Vector2.dot]
      ring
    rw [show -u.y * -u.y + u.x * u.x = u.y * u.y + u.x * u.x by ring, huu, hUU]
  have hres : resolveBallsCollision cfg f s =
      (let mtd := n.mult ((cfg.diameter - L) / L)
       let first1 := { f with pos := f.pos.add (mtd.mult 0.5) }
       let second1 := { s with pos := s.pos.subtract (mtd.mult 0.5) }
       let un := n.mult (1 / n.length)
       let ut : Vector2 := ⟨-un.y, un.x⟩
       let v1n := un.dot first1.vel
       let v1t := ut.dot first1.vel
       let v2n := un.dot second1.vel
       let v2t := ut.dot second1.vel
       let first2 := first1.setVelocity ((un.mult v2n).add (ut.mult v1t))
       let second2 := second1.setVelocity ((un.mult v1n).add (ut.mult v2t))
       let first3 := first2.setVelocity (first2.vel.mult (1 - cfg.collisionLoss))
       let second3 := second2.setVelocity (second2.vel.mult (1 - cfg.collisionLoss))
       (first3, second3, true)) := by
    unfold resolveBallsCollision
    rw [if_neg hvis, if_neg hngt]
  rw [hres]
  refine ⟨rfl, ?_, ?_, ?_, ?_, ?_, ?_, ?_⟩
  · show f.pos.add ((n.mult ((cfg.diameter - L) / L)).mult 0.5) =
      f.pos.add (n.mult ((cfg.diameter - L) / (2 * L)))
    simp only [Vector2.add, Vector2.mult, Vector2.mk.injEq]
    constructor <;> (field_simp; ring)
  · show s.pos.subtract ((n.mult ((cfg.diameter - L) / L)).mult 0.5) =
      s.pos.subtract (n.mult ((cfg.diameter - L) / (2 * L)))
    simp only [Vector2.subtract, Vector2.mult, Vector2.mk.injEq]
    constructor <;> (field_simp; ring)
  · show ((f.pos.add ((n.mult ((cfg.diameter - L) / L)).mult 0.5)).subtract f.pos).length =
      (cfg.diameter - L) / 2
    have hcancel : (f.pos.add ((n.mult ((cfg.diameter - L) / L)).mult 0.5)).subtract f.pos =
        n.mult ((cfg.diameter - L) / L * 0.5) := by
      simp only [Vector2.add, Vector2.subtract, Vector2.mult, Vector2.mk.injEq]
      constructor <;> ring
    rw [hcancel, Vector2.length_mult, ← hL]
    have hnum : (0 : ℝ) ≤ (cfg.diameter - L) / L * 0.5 :=
      mul_nonneg (div_nonneg (by linarith) (le_of_lt hpos)) (by norm_num)
    rw [abs_of_nonneg hnum]
    field_simp
    ring
  · exact normal_exchange_dot u t f.vel s.vel (1 - cfg.collisionLoss) hUU hUT
  · exact normal_exchange_dot u t s.vel f.vel (1 - cfg.collisionLoss) hUU hUT
  · exact tangent_keep_dot u t f.vel s.vel (1 - cfg.collisionLoss) hTU hTT
  · exact tangent_keep_dot u t s.vel f.vel (1 - cfg.collisionLoss) hTU hTT

end EightBall

namespace EightBall

/-- Witness for claim C2 at the specification's head-on example: ball A at
velocity (5, 0) and ball B at (-5, 0), touching along the x-axis (center
distance exactly one diameter).  The hypotheses of the collision theorem
hold, and the post-collision velocities are (-5(1-loss), 0) and
(5(1-loss), 0). -/
theorem c2_ballCollision_witness :
    0 < ((Ball.mk 0 ⟨100, 100⟩ ⟨5, 0⟩ true true Color.white).pos.subtract
      (Ball.mk 1 ⟨138, 100⟩ ⟨-5, 0⟩ true true Color.red).pos).length ∧
    ((Ball.mk 0 ⟨100, 100⟩ ⟨5, 0⟩ true true Color.white).pos.subtract
      (Ball.mk 1 ⟨138, 100⟩ ⟨-5, 0⟩ true true Color.red).pos).length ≤ gameConfig.diameter ∧
    (resolveBallsCollision gameConfig (Ball.mk 0 ⟨100, 100⟩ ⟨5, 0⟩ true true Color.white)
      (Ball.mk 1 ⟨138, 100⟩ ⟨-5, 0⟩ true true Color.red)).2.2 = true ∧
    (resolveBallsCollision gameConfig (Ball.mk 0 ⟨100, 100⟩ ⟨5, 0⟩ true true Color.white)
      (Ball.mk 1 ⟨138, 100⟩ ⟨-5, 0⟩ true true Color.red)).1.vel =
      ⟨-(5 * (1 - gameConfig.collisionLoss)), 0⟩ ∧
    (resolveBallsCollision gameConfig (Ball.mk 0 ⟨100, 100⟩ ⟨5, 0⟩ true true Color.white)
      (Ball.mk 1 ⟨138, 100⟩ ⟨-5, 0⟩ true true Color.red)).2.1.vel =
      ⟨5 * (1 - gameConfig.collisionLoss), 0⟩ := by
  have hsub : (Ball.mk 0 ⟨100, 100⟩ ⟨5, 0⟩ true true Color.white).pos.subtract
      (Ball.mk 1 ⟨138, 100⟩ ⟨-5, 0⟩ true true Color.red).pos = (⟨-38, 0⟩ : Vector2) := by
    simp only [Vector2.subtract, Vector2.mk.injEq]
    norm_num
  have hlen : (Vector2.mk (-38 : ℝ) 0).length = 38 := by
    unfold Vector2.length
    exact sqrt_eq_of_sq (by norm_num) (by norm_num)
  have hpos : 0 < ((Ball.mk 0 ⟨100, 100⟩ ⟨5, 0⟩ true true Color.white).pos.subtract
      (Ball.mk 1 ⟨138, 100⟩ ⟨-5, 0⟩ true true Color.red).pos).length := by
    rw [hsub, hlen]
    norm_num
  have hle : ((Ball.mk 0 ⟨100, 100⟩ ⟨5, 0⟩ true true Color.white).pos.subtract
      (Ball.mk 1 ⟨138, 100⟩ ⟨-5, 0⟩ true true Color.red).pos).length ≤ gameConfig.diameter := by
    rw [hsub, hlen]
    norm_num [gameConfig]
  have h := c2_ballCollision_spec gameConfig
    (Ball.mk 0 ⟨100, 100⟩ ⟨5, 0⟩ true true Color.white)
    (Ball.mk 1 ⟨138, 100⟩ ⟨-5, 0⟩ true true Color.red) rfl rfl hpos hle
  have hu : ((Ball.mk 0 ⟨100, 100⟩ ⟨5, 0⟩ true true Color.white).pos.subtract
        (Ball.mk 1 ⟨138, 100⟩ ⟨-5, 0⟩ true true Color.red).pos).mult
      (1 / ((Ball.mk 0 ⟨100, 100⟩ ⟨5, 0⟩ true true Color.white).pos.subtract
        (Ball.mk 1 ⟨138, 100⟩ ⟨-5, 0⟩ true true Color.red).pos).length) = (⟨-1, 0⟩ : Vector2) := by
    rw [hsub, hlen]
    simp only [Vector2.mult, Vector2.mk.injEq]
    norm_num
  have h5 := h.2.2.2.2.1
  have h6 := h.2.2.2.2.2.1
  have h7 := h.2.2.2.2.2.2.1
  have h8 := h.2.2.2.2.2.2.2
  rw [hu] at h5 h6 h7 h8
  simp only [Vector2.dot] at h5 h6 h7 h8
  norm_num at h5 h6 h7 h8
  refine ⟨hpos, hle, h.1, ?_, ?_⟩
  · have hx : (resolveBallsCollision gameConfig
        (Ball.mk 0 ⟨100, 100⟩ ⟨5, 0⟩ true true Color.white)
        (Ball.mk 1 ⟨138, 100⟩ ⟨-5, 0⟩ true true Color.red)).1.vel =
        ⟨(resolveBallsCollision gameConfig (Ball.mk 0 ⟨100, 100⟩ ⟨5, 0⟩ true true Color.white)
          (Ball.mk 1 ⟨138, 100⟩ ⟨-5, 0⟩ true true Color.red)).1.vel.x,
         (resolveBallsCollision gameConfig (Ball.mk 0 ⟨100, 100⟩ ⟨5, 0⟩ true true Color.white)
          (Ball.mk 1 ⟨138, 100⟩ ⟨-5, 0⟩ true true Color.red)).1.vel.y⟩ := rfl
    rw [hx]
    simp only [Vector2.mk.injEq]
    constructor
    · nlinarith [h5]
    · nlinarith [h7]
  · have hx : (resolveBallsCollision gameConfig
        (Ball.mk 0 ⟨100, 100⟩ ⟨5, 0⟩ true true Color.white)
        (Ball.mk 1 ⟨138, 100⟩ ⟨-5, 0⟩ true true Color.red)).2.1.vel =
        ⟨(resolveBallsCollision gameConfig (Ball.mk 0 ⟨100, 100⟩ ⟨5, 0⟩ true true Color.white)
          (Ball.mk 1 ⟨138, 100⟩ ⟨-5, 0⟩ true true Color.red)).2.1.vel.x,
         (resolveBallsCollision gameConfig (Ball.mk 0 ⟨100, 100⟩ ⟨5, 0⟩ true true Color.white)
          (Ball.mk 1 ⟨138, 100⟩ ⟨-5, 0⟩ true true Color.red)).2.1.vel.y⟩ := rfl
    rw [hx]
    simp only [Vector2.mk.injEq]
    constructor
    · nlinarith [h6]
    · nlinarith [h8]

end EightBall

namespace EightBall

/-- Claim C3 (code bug): in the source there is no guard for coincident
centers.  For any two visible balls whose centers are `fin`-valued and at
exactly zero distance, and any square-root primitive that agrees with
Math.sqrt at 0, the transcribed resolver divides `(diameter - 0) / 0`,
producing +Infinity, multiplies it by the zero normal vector, producing
NaN, and stores NaN into both balls' positions and velocities — the
defined-fallback behavior the claim requires does not exist in the
code. -/
theorem c3_degenerate_nan (sqrt : JS.N → JS.N) (hsq : sqrt (JS.N.fin 0) = JS.N.fin 0)
    (px py : ℚ) (vf vs : JS.Vec) (mf ms : Bool) :
    (JS.resolveBallsCollisionJS sqrt (JS.N.fin 38) (JS.N.fin (9 / 500))
        ⟨⟨JS.N.fin px, JS.N.fin py⟩, vf, mf, true⟩
        ⟨⟨JS.N.fin px, JS.N.fin py⟩, vs, ms, true⟩).1.pos =
      ⟨JS.N.nan, JS.N.nan⟩ ∧
    (JS.resolveBallsCollisionJS sqrt (JS.N.fin 38) (JS.N.fin (9 / 500))
        ⟨⟨JS.N.fin px, JS.N.fin py⟩, vf, mf, true⟩
        ⟨⟨JS.N.fin px, JS.N.fin py⟩, vs, ms, true⟩).2.1.pos =
      ⟨JS.N.nan, JS.N.nan⟩ ∧
    (JS.resolveBallsCollisionJS sqrt (JS.N.fin 38) (JS.N.fin (9 / 500))
        ⟨⟨JS.N.fin px, JS.N.fin py⟩, vf, mf, true⟩
        ⟨⟨JS.N.fin px, JS.N.fin py⟩, vs, ms, true⟩).1.vel =
      ⟨JS.N.nan, JS.N.nan⟩ ∧
    (JS.resolveBallsCollisionJS sqrt (JS.N.fin 38) (JS.N.fin (9 / 500))
        ⟨⟨JS.N.fin px, JS.N.fin py⟩, vf, mf, true⟩
        ⟨⟨JS.N.fin px, JS.N.fin py⟩, vs, ms, true⟩).2.1.vel =
      ⟨JS.N.nan, JS.N.nan⟩ := by
  have hvx : px + -px = 0 := by ring
  have hvy : py + -py = 0 := by ring
  norm_num [JS.resolveBallsCollisionJS, JS.Vec.sub, JS.Vec.add, JS.Vec.mult, JS.Vec.dot,
    JS.Vec.length, JS.BallV.setVelocity, JS.N.sub, JS.N.add, JS.N.neg, JS.N.mul,
    JS.N.div, JS.N.gt, hvx, hvy, hsq]

end EightBall

namespace EightBall

/-- Witness for claim C3's theorem: instantiating the square-root primitive
with a concrete function agreeing with Math.sqrt at 0, and the balls with
two concrete visible balls at the same center (413, 413), the resolver
output position is (NaN, NaN). -/
theorem c3_degenerate_nan_witness :
    (fun _ : JS.N => JS.N.fin 0) (JS.N.fin 0) = JS.N.fin 0 ∧
    (JS.resolveBallsCollisionJS (fun _ : JS.N => JS.N.fin 0) (JS.N.fin 38)
        (JS.N.fin (9 / 500))
        ⟨⟨JS.N.fin 413, JS.N.fin 413⟩, ⟨JS.N.fin 5, JS.N.fin 0⟩, true, true⟩
        ⟨⟨JS.N.fin 413, JS.N.fin 413⟩, ⟨JS.N.fin (-5), JS.N.fin 0⟩, true, true⟩).1.pos =
      ⟨JS.N.nan, JS.N.nan⟩ :=
  ⟨rfl, (c3_degenerate_nan (fun _ : JS.N => JS.N.fin 0) rfl 413 413
    ⟨JS.N.fin 5, JS.N.fin 0⟩ ⟨JS.N.fin (-5), JS.N.fin 0⟩ true true).1⟩

end EightBall

namespace EightBall

lemma fin2_succ_ne : ∀ i : Fin 2, i + 1 ≠ i := by decide

/-- Claim C6: when a turn concludes without ending the game, nextTurn
advances to the other player exactly when the turn was invalid or zero
balls were pocketed, and creates a fresh turn state (no first collision,
no pocketed balls, not yet validated) whose ballInHand flag is true
exactly when the concluded turn was a foul (invalid). -/
theorem c6_nextTurn_spec (cfg : Config) (w : GameWorld) (h : worldIsGameOver w = false) :
    (nextTurn cfg w).currentPlayerIndex =
      (if w.turnState.isValid = false ∨ w.turnState.pocketedBalls.length = 0 then
        w.currentPlayerIndex + 1 else w.currentPlayerIndex) ∧
    ((nextTurn cfg w).currentPlayerIndex ≠ w.currentPlayerIndex ↔
      (w.turnState.isValid = false ∨ w.turnState.pocketedBalls.length = 0)) ∧
    (nextTurn cfg w).turnState.ballInHand = !w.turnState.isValid ∧
    (nextTurn cfg w).turnState.firstCollidedBallColor = none ∧
    (nextTurn cfg w).turnState.pocketedBalls = [] ∧
    (nextTurn cfg w).turnState.isValid = false := by
  have hgo : ¬ (worldIsGameOver w = true) := by simp [h]
  unfold nextTurn
  rw [if_neg hgo]
  cases hv : w.turnState.isValid with
  | false =>
    simp only [hv, Bool.not_false, setBall, TurnState.init, Stick.show]
    split_ifs with h1 <;>
      simp_all [fin2_succ_ne]
  | true =>
    simp only [hv, Bool.not_true, setBall, TurnState.init, Stick.show]
    split_ifs with h1 h2 h3 <;>
      simp_all [fin2_succ_ne]

end EightBall

namespace EightBall

/-- A small concrete world used to witness claim C6: cue ball (id 15) and
eight ball (id 14) both visible, colorless players, player 0 to move,
and a concluded turn that was valid with zero pocketed balls. -/
noncomputable def c6World : GameWorld :=
  { stick := ⟨⟨413, 413⟩, ⟨970, 11⟩, 0, 0, false, false⟩
    store := [⟨15, ⟨413, 413⟩, Vector2.zero, false, true, Color.white⟩,
              ⟨14, ⟨1090, 413⟩, Vector2.zero, false, true, Color.black⟩]
    balls := [15, 14]
    cueBallId := 15
    eightBallId := 14
    players := fun _ => ⟨none, 0, 0⟩
    currentPlayerIndex := 0
    turnState := ⟨none, [], false, true⟩ }

/-- Witness for claim C6: in `c6World` the game is not over, the concluded
turn was valid but pocketed nothing, so the turn passes to player 1 and
the fresh turn state has ballInHand = false. -/
theorem c6_nextTurn_witness :
    worldIsGameOver c6World = false ∧
    (nextTurn gameConfig c6World).currentPlayerIndex = c6World.currentPlayerIndex + 1 ∧
    (nextTurn gameConfig c6World).turnState.ballInHand = false := by
  have hgo : worldIsGameOver c6World = false := by
    norm_num [worldIsGameOver, Referee.isGameOver, getBall, c6World, List.find?]
  have h := c6_nextTurn_spec gameConfig c6World hgo
  refine ⟨hgo, ?_, ?_⟩
  · rw [h.1]
    simp [c6World]
  · exact h.2.2.1
end EightBall

namespace EightBall

lemma find?_id_map_set_ne (l : List Ball) (i j : ℕ) (b : Ball) (hne : j ≠ i)
    (hid : b.id = i) :
    (l.map (fun o => if o.id = i then b else o)).find? (fun o => decide (o.id = j)) =
    l.find? (fun o => decide (o.id = j)) := by
  induction l with
  | nil => rfl
  | cons a l ih =>
    simp only [List.map_cons, List.find?_cons]
    by_cases ha : a.id = i
    · have h1 : (decide (b.id = j)) = false := by
        simp [hid]
        exact fun hji => absurd hji.symm hne
      have h2 : (decide (a.id = j)) = false := by
        simp [ha]
        exact fun hji => absurd hji.symm hne
      rw [if_pos ha, h1, h2]
      exact ih
    · rw [if_neg ha]
      cases hpa : (decide (a.id = j)) with
      | true => rfl
      | false => exact ih

lemma getBall_setBall_ne (w : GameWorld) (i j : ℕ) (b : Ball) (hne : j ≠ i)
    (hid : b.id = i) : getBall (setBall w i b) j = getBall w j := by
  unfold getBall setBall
  rw [find?_id_map_set_ne w.store i j b hne hid]

lemma getBall_mem_id (w : GameWorld) (i : ℕ) (hex : ∃ o ∈ w.store, o.id = i) :
    getBall w i ∈ w.store ∧ (getBall w i).id = i := by
  unfold getBall
  obtain ⟨o, ho, hoid⟩ := hex
  have hsome : (w.store.find? (fun b => decide (b.id = i))).isSome := by
    rw [List.find?_isSome]
    exact ⟨o, ho, by simp [hoid]⟩
  obtain ⟨c, hc⟩ := Option.isSome_iff_exists.1 hsome
  rw [hc]
  have hcid : c.id = i := by
    have := List.find?_some hc
    simpa using this
  exact ⟨List.mem_of_find?_eq_some hc, hcid⟩

lemma find?_id_map_set_self (l : List Ball) (i : ℕ) (b : Ball) (hid : b.id = i)
    (hex : ∃ o ∈ l, o.id = i) :
    (l.map (fun o => if o.id = i then b else o)).find? (fun o => decide (o.id = i)) =
    some b := by
  induction l with
  | nil => simp at hex
  | cons a l ih =>
    simp only [List.map_cons, List.find?_cons]
    by_cases ha : a.id = i
    · rw [if_pos ha]
      simp [hid]
    · rw [if_neg ha]
      have hb : (decide (a.id = i)) = false := by simp [ha]
      rw [hb]
      apply ih
      obtain ⟨o, ho, hoid⟩ := hex
      rcases List.mem_cons.1 ho with h | h
      · exact absurd (h ▸ hoid) ha
      · exact ⟨o, h, hoid⟩

lemma getBall_setBall_self (w : GameWorld) (i : ℕ) (b : Ball) (hid : b.id = i)
    (hex : ∃ o ∈ w.store, o.id = i) : getBall (setBall w i b) i = b := by
  unfold getBall setBall
  rw [find?_id_map_set_self w.store i b hid hex]
  rfl

lemma setBall_store_absent (w : GameWorld) (i : ℕ) (b : Ball)
    (hab : ∀ o ∈ w.store, o.id ≠ i) : (setBall w i b).store = w.store := by
  unfold setBall
  have : ∀ o ∈ w.store, (if o.id = i then b else o) = o := fun o ho => if_neg (hab o ho)
  rw [List.map_congr_left this, List.map_id']

end EightBall

namespace EightBall

lemma distFrom_gt (a b : Vector2) (c : ℝ) (hc : 0 ≤ c)
    (h : c ^ 2 < (a.x - b.x) ^ 2 + (a.y - b.y) ^ 2) : c < a.distFrom b := by
  unfold Vector2.distFrom Vector2.subtract Vector2.length
  exact lt_sqrt_of_sq_lt hc h

lemma distFrom_le (a b : Vector2) (c : ℝ) (hc : 0 ≤ c)
    (h : (a.x - b.x) ^ 2 + (a.y - b.y) ^ 2 ≤ c ^ 2) : a.distFrom b ≤ c := by
  unfold Vector2.distFrom Vector2.subtract Vector2.length
  exact sqrt_le_of_sq_le hc h

lemma not_inside_pocket (pos : Vector2)
    (h1 : 48 ^ 2 < (pos.x - 62) ^ 2 + (pos.y - 62) ^ 2)
    (h2 : 48 ^ 2 < (pos.x - 750) ^ 2 + (pos.y - 32) ^ 2)
    (h3 : 48 ^ 2 < (pos.x - 1435) ^ 2 + (pos.y - 62) ^ 2)
    (h4 : 48 ^ 2 < (pos.x - 62) ^ 2 + (pos.y - 762) ^ 2)
    (h5 : 48 ^ 2 < (pos.x - 750) ^ 2 + (pos.y - 794) ^ 2)
    (h6 : 48 ^ 2 < (pos.x - 1435) ^ 2 + (pos.y - 762) ^ 2) :
    ¬ isInsidePocket gameConfig pos := by
  rintro ⟨p, hmem, hle⟩
  have hlist : gameConfig.pocketsPositions =
      [⟨62, 62⟩, ⟨750, 32⟩, ⟨1435, 62⟩, ⟨62, 762⟩, ⟨750, 794⟩, ⟨1435, 762⟩] := rfl
  have hrad : gameConfig.pocketRadius = (48 : ℝ) := rfl
  rw [hlist] at hmem
  rw [hrad] at hle
  simp only [List.mem_cons, List.not_mem_nil, or_false] at hmem
  rcases hmem with rfl | rfl | rfl | rfl | rfl | rfl
  · exact absurd hle (not_le.2 (distFrom_gt _ _ 48 (by norm_num) h1))
  · exact absurd hle (not_le.2 (distFrom_gt _ _ 48 (by norm_num) h2))
  · exact absurd hle (not_le.2 (distFrom_gt _ _ 48 (by norm_num) h3))
  · exact absurd hle (not_le.2 (distFrom_gt _ _ 48 (by norm_num) h4))
  · exact absurd hle (not_le.2 (distFrom_gt _ _ 48 (by norm_num) h5))
  · exact absurd hle (not_le.2 (distFrom_gt _ _ 48 (by norm_num) h6))

/-- The cue-ball placement acceptance condition exactly as claim C7 words
it: inside the table bounds, outside every pocket, and more than one
ball diameter away from every other VISIBLE ball (the source instead
exempts white balls and tests every non-white ball, visible or not). -/
noncomputable def claimedValidPlacement (cfg : Config) (w : GameWorld)
    (position : Vector2) : Prop :=
  ¬ isBallPosOutsideTopBorder cfg position ∧
  ¬ isBallPosOutsideLeftBorder cfg position ∧
  ¬ isBallPosOutsideRightBorder cfg position ∧
  ¬ isBallPosOutsideBottomBorder cfg position ∧
  ¬ isInsidePocket cfg position ∧
  ∀ id ∈ w.balls, id ≠ w.cueBallId → (getBall w id).visible = true →
    (getBall w id).pos.distFrom position > cfg.diameter

/-- A world used to refute claim C7 as stated: besides the cue ball
(id 15), the play list holds a red ball (id 3) that is not visible,
parked exactly at the probed position (750, 413). -/
noncomputable def c7World : GameWorld :=
  { stick := ⟨⟨413, 413⟩, ⟨970, 11⟩, 0, 0, false, false⟩
    store := [⟨15, ⟨413, 413⟩, Vector2.zero, false, true, Color.white⟩,
              ⟨3, ⟨750, 413⟩, Vector2.zero, false, false, Color.red⟩]
    balls := [15, 3]
    cueBallId := 15
    eightBallId := 14
    players := fun _ => ⟨none, 0, 0⟩
    currentPlayerIndex := 0
    turnState := ⟨none, [], true, false⟩ }

/-- Claim C7, counterexample: the position (750, 413) is inside the table
bounds, outside every pocket, and farther than one diameter from every
other VISIBLE ball, so the claim accepts it — but the source's
isValidPosToPlaceCueBall rejects it, because the invisible non-white
ball at that spot is also tested. -/
theorem c7_place_counterexample :
    claimedValidPlacement gameConfig c7World ⟨750, 413⟩ ∧
    ¬ isValidPosToPlaceCueBall gameConfig c7World ⟨750, 413⟩ := by
  have hball3 : getBall c7World 3 =
      (⟨3, ⟨750, 413⟩, Vector2.zero, false, false, Color.red⟩ : Ball) := by
    norm_num [getBall, c7World, List.find?]
  constructor
  · refine ⟨?_, ?_, ?_, ?_, ?_, ?_⟩
    · norm_num [isBallPosOutsideTopBorder, gameConfig]
    · norm_num [isBallPosOutsideLeftBorder, gameConfig]
    · norm_num [isBallPosOutsideRightBorder, gameConfig]
    · norm_num [isBallPosOutsideBottomBorder, gameConfig]
    · exact not_inside_pocket _ (by norm_num) (by norm_num) (by norm_num) (by norm_num)
        (by norm_num) (by norm_num)
    · intro id hid hne hvis
      have hmem : id = 15 ∨ id = 3 := by
        have : c7World.balls = [15, 3] := rfl
        rw [this] at hid
        simpa using hid
      rcases hmem with rfl | rfl
      · exact absurd rfl hne
      · rw [hball3] at hvis
        simp at hvis
  · rintro ⟨hover, _⟩
    have h3 := hover 3 (by simp [c7World])
    rw [hball3] at h3
    rcases h3 with hw | hd
    · simp at hw
    · have hz : (Vector2.mk (750 : ℝ) 413).distFrom ⟨750, 413⟩ = 0 := by
        unfold Vector2.distFrom Vector2.subtract Vector2.length
        norm_num
      rw [hz] at hd
      have : gameConfig.diameter = (38 : ℝ) := rfl
      rw [this] at hd
      norm_num at hd

end EightBall

namespace EightBall

lemma getBall_setBall_absent (w : GameWorld) (i j : ℕ) (b : Ball)
    (hab : ∀ o ∈ w.store, o.id ≠ i) : getBall (setBall w i b) j = getBall w j := by
  unfold getBall
  rw [setBall_store_absent w i b hab]

/-- Claim C7, amended: a placement probe is accepted exactly when the
position is inside the table bounds, outside every pocket, and more than
one ball diameter away from every NON-WHITE ball in play (visible or
not; the white cue ball itself is exempt).  On a press at a valid
position the placement commits (ballInHand is cleared and only the cue
ball's position changes); otherwise the placement is not committed: the
turn state, players, play list and every non-cue ball are unchanged, the
stick is hidden, and the cue ball merely tracks the probed position. -/
theorem c7_place_amended (cfg : Config) (input : Input) (w : GameWorld) :
    (isValidPosToPlaceCueBall cfg w input.mousePos ↔
      ((∀ id ∈ w.balls, (getBall w id).color ≠ Color.white →
          (getBall w id).pos.distFrom input.mousePos > cfg.diameter) ∧
        ¬ isInsidePocket cfg input.mousePos ∧
        ¬ isBallPosOutsideTopBorder cfg input.mousePos ∧
        ¬ isBallPosOutsideLeftBorder cfg input.mousePos ∧
        ¬ isBallPosOutsideRightBorder cfg input.mousePos ∧
        ¬ isBallPosOutsideBottomBorder cfg input.mousePos)) ∧
    (input.placePressed = true → isValidPosToPlaceCueBall cfg w input.mousePos →
      (handleBallInHand cfg input w).turnState.ballInHand = false ∧
      ((∃ o ∈ w.store, o.id = w.cueBallId) →
        getBall (handleBallInHand cfg input w) w.cueBallId =
          { getBall w w.cueBallId with pos := input.mousePos })) ∧
    (¬ (input.placePressed = true ∧ isValidPosToPlaceCueBall cfg w input.mousePos) →
      (handleBallInHand cfg input w).turnState = w.turnState ∧
      (handleBallInHand cfg input w).players = w.players ∧
      (handleBallInHand cfg input w).balls = w.balls ∧
      (handleBallInHand cfg input w).currentPlayerIndex = w.currentPlayerIndex ∧
      (handleBallInHand cfg input w).stick.visible = false ∧
      (handleBallInHand cfg input w).stick.movable = false ∧
      (∀ id, id ≠ w.cueBallId → getBall (handleBallInHand cfg input w) id = getBall w id)) := by
  refine ⟨?_, ?_, ?_⟩
  · unfold isValidPosToPlaceCueBall isInsideTableBoundaries
    constructor
    · rintro ⟨h1, h2, h3, h4, h5, h6⟩
      exact ⟨fun id hid hnw => (h1 id hid).resolve_left hnw, h2, h3, h4, h5, h6⟩
    · rintro ⟨h1, h2, h3, h4, h5, h6⟩
      refine ⟨fun id hid => ?_, h2, h3, h4, h5, h6⟩
      by_cases hw : (getBall w id).color = Color.white
      · exact Or.inl hw
      · exact Or.inr (h1 id hid hw)
  · intro hp hv
    unfold handleBallInHand
    rw [if_pos ⟨hp, hv⟩]
    refine ⟨rfl, fun hex => ?_⟩
    have hxid : ({ getBall w w.cueBallId with pos := input.mousePos } : Ball).id =
        w.cueBallId := (getBall_mem_id w _ hex).2
    have h := getBall_setBall_self w w.cueBallId
      { getBall w w.cueBallId with pos := input.mousePos } hxid hex
    simp only [placeBallInHand]
    exact h
  · intro hn
    unfold handleBallInHand
    rw [if_neg hn]
    refine ⟨rfl, rfl, rfl, rfl, rfl, rfl, fun id hne => ?_⟩
    by_cases hex : ∃ o ∈ w.store, o.id = w.cueBallId
    · have hxid : ({ getBall w w.cueBallId with pos := input.mousePos } : Ball).id =
          w.cueBallId := (getBall_mem_id w _ hex).2
      exact getBall_setBall_ne _ w.cueBallId id _ hne hxid
    · push_neg at hex
      exact getBall_setBall_absent
        { w with stick := { w.stick with movable := false, visible := false } }
        w.cueBallId id
        { getBall ({ w with stick := { w.stick with movable := false, visible := false } } :
            GameWorld) w.cueBallId with pos := input.mousePos }
        (fun o ho => hex o ho)

end EightBall

namespace EightBall

/-- A world with the cue ball in hand and no other ball in play, used to
witness the placement path: cue ball id 15 at the default spot,
ballInHand = true. -/
noncomputable def cueOnlyWorld : GameWorld :=
  { stick := ⟨⟨413, 413⟩, ⟨970, 11⟩, 0, 0, false, false⟩
    store := [⟨15, ⟨413, 413⟩, Vector2.zero, false, true, Color.white⟩]
    balls := [15]
    cueBallId := 15
    eightBallId := 14
    players := fun _ => ⟨none, 0, 0⟩
    currentPlayerIndex := 0
    turnState := ⟨none, [], true, false⟩ }

lemma cueOnlyWorld_valid_pos :
    isValidPosToPlaceCueBall gameConfig cueOnlyWorld ⟨750, 413⟩ := by
  constructor
  · intro id hid
    have : id = 15 := by
      have hb : cueOnlyWorld.balls = [15] := rfl
      rw [hb] at hid
      simpa using hid
    subst this
    exact Or.inl rfl
  · refine ⟨?_, ?_, ?_, ?_, ?_⟩
    · exact not_inside_pocket _ (by norm_num) (by norm_num) (by norm_num) (by norm_num)
        (by norm_num) (by norm_num)
    · norm_num [isBallPosOutsideTopBorder, gameConfig]
    · norm_num [isBallPosOutsideLeftBorder, gameConfig]
    · norm_num [isBallPosOutsideRightBorder, gameConfig]
    · norm_num [isBallPosOutsideBottomBorder, gameConfig]

/-- Witness for claim C7: a press at the legal position (750, 413) with only
the cue ball in play commits the placement and clears ballInHand. -/
theorem c7_place_witness :
    (⟨⟨750, 413⟩, true, false, 0, 0⟩ : Input).placePressed = true ∧
    isValidPosToPlaceCueBall gameConfig cueOnlyWorld
      (⟨⟨750, 413⟩, true, false, 0, 0⟩ : Input).mousePos ∧
    (handleBallInHand gameConfig ⟨⟨750, 413⟩, true, false, 0, 0⟩
      cueOnlyWorld).turnState.ballInHand = false :=
  ⟨rfl, cueOnlyWorld_valid_pos,
    ((c7_place_amended gameConfig ⟨⟨750, 413⟩, true, false, 0, 0⟩ cueOnlyWorld).2.1
      rfl cueOnlyWorld_valid_pos).1⟩

end EightBall

namespace EightBall

/-- Claim C10, counterexample: with ball in hand and a press at a legal
position, the update tick changes more than the cue ball's position and
the stick flags — the turn state's ballInHand flag flips from true to
false (the placement commits). -/
theorem c10_ballInHand_counterexample :
    cueOnlyWorld.turnState.ballInHand = true ∧
    (update gameConfig ⟨⟨750, 413⟩, true, false, 0, 0⟩ cueOnlyWorld).turnState.ballInHand =
      false := by
  refine ⟨rfl, ?_⟩
  unfold update
  rw [if_pos (show cueOnlyWorld.turnState.ballInHand = true from rfl)]
  unfold handleBallInHand
  rw [if_pos (⟨rfl, cueOnlyWorld_valid_pos⟩ :
    (⟨⟨750, 413⟩, true, false, 0, 0⟩ : Input).placePressed = true ∧
    isValidPosToPlaceCueBall gameConfig cueOnlyWorld
      (⟨⟨750, 413⟩, true, false, 0, 0⟩ : Input).mousePos)]
  rfl

/-- Claim C10, amended: whenever the turn state has ballInHand = true, the
update tick reduces to handleBallInHand — no pocket processing,
collision resolution, friction integration or turn conclusion runs.
The play list, players, player index, and the recorded first collision,
pocketed balls and verdict are unchanged; the stick keeps its rotation
and power; every ball other than the cue ball is untouched; and the cue
ball changes only its position (to the probed mouse position).  Beyond
the claim's wording, the ballInHand flag itself and the stick's
position, origin, visibility and movability may also change. -/
theorem c10_ballInHand_amended (cfg : Config) (input : Input) (w : GameWorld)
    (h : w.turnState.ballInHand = true) :
    update cfg input w = handleBallInHand cfg input w ∧
    (update cfg input w).balls = w.balls ∧
    (update cfg input w).players = w.players ∧
    (update cfg input w).currentPlayerIndex = w.currentPlayerIndex ∧
    (update cfg input w).turnState.firstCollidedBallColor =
      w.turnState.firstCollidedBallColor ∧
    (update cfg input w).turnState.pocketedBalls = w.turnState.pocketedBalls ∧
    (update cfg input w).turnState.isValid = w.turnState.isValid ∧
    (update cfg input w).stick.rotation = w.stick.rotation ∧
    (update cfg input w).stick.power = w.stick.power ∧
    (∀ id, id ≠ w.cueBallId → getBall (update cfg input w) id = getBall w id) ∧
    ((∃ o ∈ w.store, o.id = w.cueBallId) →
      getBall (update cfg input w) w.cueBallId =
        { getBall w w.cueBallId with pos := input.mousePos }) := by
  unfold update
  rw [if_pos h]
  unfold handleBallInHand
  split_ifs with hcond
  · refine ⟨rfl, rfl, rfl, rfl, rfl, rfl, rfl, rfl, rfl, fun id hne => ?_, fun hex => ?_⟩
    · simp only [placeBallInHand]
      by_cases hex : ∃ o ∈ w.store, o.id = w.cueBallId
      · exact getBall_setBall_ne w w.cueBallId id _ hne (getBall_mem_id w _ hex).2
      · push_neg at hex
        exact getBall_setBall_absent w w.cueBallId id _ (fun o ho => hex o ho)
    · simp only [placeBallInHand]
      exact getBall_setBall_self w w.cueBallId _ (getBall_mem_id w _ hex).2 hex
  · refine ⟨rfl, rfl, rfl, rfl, rfl, rfl, rfl, rfl, rfl, fun id hne => ?_, fun hex => ?_⟩
    · by_cases hex : ∃ o ∈ w.store, o.id = w.cueBallId
      · exact getBall_setBall_ne _ w.cueBallId id _ hne (getBall_mem_id w _ hex).2
      · push_neg at hex
        exact getBall_setBall_absent
          { w with stick := { w.stick with movable := false, visible := false } }
          w.cueBallId id
          { getBall ({ w with stick := { w.stick with movable := false, visible := false } } :
              GameWorld) w.cueBallId with pos := input.mousePos }
          (fun o ho => hex o ho)
    · exact getBall_setBall_self
        { w with stick := { w.stick with movable := false, visible := false } }
        w.cueBallId _ (getBall_mem_id w _ hex).2 hex

/-- Witness for claim C10's amended theorem at a concrete in-hand world:
the tick leaves the single-entry play list unchanged and flips nothing
outside the allowed set; shown here through the instantiated theorem. -/
theorem c10_ballInHand_witness :
    cueOnlyWorld.turnState.ballInHand = true ∧
    (update gameConfig ⟨⟨750, 413⟩, true, false, 0, 0⟩ cueOnlyWorld).balls =
      cueOnlyWorld.balls ∧
    (update gameConfig ⟨⟨750, 413⟩, true, false, 0, 0⟩ cueOnlyWorld).players =
      cueOnlyWorld.players :=
  ⟨rfl,
    (c10_ballInHand_amended gameConfig ⟨⟨750, 413⟩, true, false, 0, 0⟩ cueOnlyWorld rfl).2.1,
    (c10_ballInHand_amended gameConfig ⟨⟨750, 413⟩, true, false, 0, 0⟩ cueOnlyWorld
      rfl).2.2.1⟩

end EightBall

namespace EightBall

/-- The complementary color assignment used by handleBallsInPockets:
`ball.color === Color.yellow ? Color.red : Color.yellow`. -/
def otherColor (c : Color) : Color := if c = Color.yellow then Color.red else Color.yellow

lemma resolveBallInPocket_color (cfg : Config) (b : Ball) :
    (resolveBallInPocket cfg b).color = b.color := by
  unfold resolveBallInPocket Ball.hide
  split_ifs <;> rfl

lemma resolveBallInPocket_id (cfg : Config) (b : Ball) :
    (resolveBallInPocket cfg b).id = b.id := by
  unfold resolveBallInPocket Ball.hide
  split_ifs <;> rfl

lemma find?_congr_mem {α : Type} (l : List α) (p q : α → Bool)
    (h : ∀ a ∈ l, p a = q a) : l.find? p = l.find? q := by
  induction l with
  | nil => rfl
  | cons a l ih =>
    rw [List.find?_cons, List.find?_cons, h a (List.mem_cons_self a l)]
    cases q a with
    | true => rfl
    | false => exact ih (fun x hx => h x (List.mem_cons_of_mem a hx))

lemma pocketStep_getBall_set (cfg : Config) (w : GameWorld) (a id : ℕ) (hne : id ≠ a) :
    getBall (setBall w a (resolveBallInPocket cfg (getBall w a))) id = getBall w id := by
  by_cases hex : ∃ o ∈ w.store, o.id = a
  · have hid : (resolveBallInPocket cfg (getBall w a)).id = a := by
      rw [resolveBallInPocket_id]
      exact (getBall_mem_id w a hex).2
    exact getBall_setBall_ne w a id _ hne hid
  · push_neg at hex
    exact getBall_setBall_absent w a id _ (fun o ho => hex o ho)

lemma pocketStep_getBall_ne (cfg : Config) (w : GameWorld) (a id : ℕ) (hne : id ≠ a) :
    getBall (pocketStep cfg w a) id = getBall w id := by
  have hb := pocketStep_getBall_set cfg w a id hne
  unfold pocketStep
  dsimp only
  split_ifs with h1 h2 <;> exact hb

lemma pocketStep_getBall_color (cfg : Config) (w : GameWorld) (a id : ℕ) :
    (getBall (pocketStep cfg w a) id).color = (getBall w id).color := by
  by_cases hne : id = a
  · subst hne
    have hb : (getBall (setBall w id (resolveBallInPocket cfg (getBall w id))) id).color =
        (getBall w id).color := by
      by_cases hex : ∃ o ∈ w.store, o.id = id
      · have hid : (resolveBallInPocket cfg (getBall w id)).id = id := by
          rw [resolveBallInPocket_id]
          exact (getBall_mem_id w id hex).2
        rw [getBall_setBall_self w id _ hid hex, resolveBallInPocket_color]
      · push_neg at hex
        rw [getBall_setBall_absent w id id _ (fun o ho => hex o ho)]
    unfold pocketStep
    dsimp only
    split_ifs with h1 h2 <;> exact hb
  · rw [pocketStep_getBall_ne cfg w a id hne]

lemma setBall_turnState (w : GameWorld) (i : ℕ) (b : Ball) :
    (setBall w i b).turnState = w.turnState := rfl

lemma currentPlayer_setBall (w : GameWorld) (i : ℕ) (b : Ball) :
    currentPlayer (setBall w i b) = currentPlayer w := rfl

lemma setPlayer_turnState (w : GameWorld) (i : Fin 2) (p : Player) :
    (setPlayer w i p).turnState = w.turnState := rfl

lemma pocketStep_pocketed (cfg : Config) (w : GameWorld) (a : ℕ) :
    (pocketStep cfg w a).turnState.pocketedBalls =
      w.turnState.pocketedBalls ++
        (if (resolveBallInPocket cfg (getBall w a)).visible = false ∧
            a ∉ w.turnState.pocketedBalls then [a] else []) := by
  unfold pocketStep
  dsimp only
  simp only [setBall_turnState, currentPlayer_setBall]
  split_ifs <;> simp [setBall_turnState, setPlayer_turnState]

lemma pocketStep_index (cfg : Config) (w : GameWorld) (a : ℕ) :
    (pocketStep cfg w a).currentPlayerIndex = w.currentPlayerIndex := by
  unfold pocketStep
  dsimp only
  split_ifs <;> rfl

lemma pocketStep_balls (cfg : Config) (w : GameWorld) (a : ℕ) :
    (pocketStep cfg w a).balls = w.balls := by
  unfold pocketStep
  dsimp only
  split_ifs <;> rfl

lemma pocketStep_players_eq (cfg : Config) (w : GameWorld) (a : ℕ)
    (h : ¬ ((resolveBallInPocket cfg (getBall w a)).visible = false ∧
             a ∉ w.turnState.pocketedBalls ∧
             (currentPlayer w).color = none ∧ isValidPlayerColor (getBall w a).color)) :
    (pocketStep cfg w a).players = w.players := by
  unfold pocketStep
  dsimp only
  simp only [setBall_turnState, currentPlayer_setBall]
  split_ifs with h1 h2 h3
  · exfalso
    apply h
    refine ⟨h1.1, h1.2, h2.1, ?_⟩
    rw [← resolveBallInPocket_color cfg (getBall w a)]
    exact h2.2
  · exfalso
    apply h
    refine ⟨h1.1, h1.2, h2.1, ?_⟩
    rw [← resolveBallInPocket_color cfg (getBall w a)]
    exact h2.2
  · rfl
  · rfl

lemma pocketStep_assign (cfg : Config) (w : GameWorld) (a : ℕ)
    (hcol : (currentPlayer w).color = none)
    (hq1 : (resolveBallInPocket cfg (getBall w a)).visible = false)
    (hq2 : a ∉ w.turnState.pocketedBalls)
    (hq3 : isValidPlayerColor (getBall w a).color) :
    (currentPlayer (pocketStep cfg w a)).color = some (getBall w a).color ∧
    (nextPlayer (pocketStep cfg w a)).color = some (otherColor (getBall w a).color) := by
  have hq3b : isValidPlayerColor (resolveBallInPocket cfg (getBall w a)).color := by
    rw [resolveBallInPocket_color]
    exact hq3
  unfold pocketStep
  dsimp only
  rw [if_pos ⟨hq1, hq2⟩, if_pos ⟨hcol, hq3b⟩]
  unfold currentPlayer nextPlayer setPlayer setBall
  constructor
  · show (Function.update
      (Function.update w.players w.currentPlayerIndex _) (w.currentPlayerIndex + 1) _
        w.currentPlayerIndex).color = _
    rw [Function.update_noteq (fin2_succ_ne w.currentPlayerIndex).symm,
      Function.update_same]
    show some (resolveBallInPocket cfg (getBall w a)).color = _
    rw [resolveBallInPocket_color]
  · show (Function.update
      (Function.update w.players w.currentPlayerIndex _) (w.currentPlayerIndex + 1) _
        (w.currentPlayerIndex + 1)).color = _
    rw [Function.update_same]
    show some (if (resolveBallInPocket cfg (getBall w a)).color = Color.yellow then
      Color.red else Color.yellow) = _
    rw [resolveBallInPocket_color]
    rfl

end EightBall

namespace EightBall

lemma pocketFold_colors_frozen (cfg : Config) (l : List ℕ) :
    ∀ w : GameWorld, (currentPlayer w).color ≠ none →
      (l.foldl (pocketStep cfg) w).players = w.players ∧
      (l.foldl (pocketStep cfg) w).currentPlayerIndex = w.currentPlayerIndex := by
  induction l with
  | nil => exact fun w _ => ⟨rfl, rfl⟩
  | cons a l ih =>
    intro w h
    rw [List.foldl_cons]
    have hp : (pocketStep cfg w a).players = w.players :=
      pocketStep_players_eq cfg w a (fun hc => h hc.2.2.1)
    have hi : (pocketStep cfg w a).currentPlayerIndex = w.currentPlayerIndex :=
      pocketStep_index cfg w a
    have h2 : (currentPlayer (pocketStep cfg w a)).color ≠ none := by
      unfold currentPlayer
      rw [hp, hi]
      exact h
    obtain ⟨hp', hi'⟩ := ih (pocketStep cfg w a) h2
    rw [hp', hi', hp, hi]
    exact ⟨rfl, rfl⟩

lemma pocketStep_currentPlayer_of_no_assign (cfg : Config) (w : GameWorld) (a : ℕ)
    (h : ¬ ((resolveBallInPocket cfg (getBall w a)).visible = false ∧
             a ∉ w.turnState.pocketedBalls ∧
             (currentPlayer w).color = none ∧ isValidPlayerColor (getBall w a).color)) :
    currentPlayer (pocketStep cfg w a) = currentPlayer w ∧
    nextPlayer (pocketStep cfg w a) = nextPlayer w := by
  have hp := pocketStep_players_eq cfg w a h
  have hi := pocketStep_index cfg w a
  unfold currentPlayer nextPlayer
  rw [hp, hi]
  exact ⟨rfl, rfl⟩

lemma pocketFold_assign (cfg : Config) (l : List ℕ) :
    ∀ w : GameWorld, l.Nodup → (currentPlayer w).color = none →
      ∀ c : Color,
        (l.find? (fun id =>
            decide ((resolveBallInPocket cfg (getBall w id)).visible = false ∧
              id ∉ w.turnState.pocketedBalls ∧
              isValidPlayerColor (getBall w id).color))).map
          (fun id => (getBall w id).color) = some c →
        (currentPlayer (l.foldl (pocketStep cfg) w)).color = some c ∧
        (nextPlayer (l.foldl (pocketStep cfg) w)).color = some (otherColor c) := by
  induction l with
  | nil =>
    intro w _ _ c hc
    simp [List.find?] at hc
  | cons a l ih =>
    intro w hnd hcol c hc
    have hal : a ∉ l := (List.nodup_cons.1 hnd).1
    have hlnd : l.Nodup := (List.nodup_cons.1 hnd).2
    rw [List.foldl_cons]
    by_cases hq : ((resolveBallInPocket cfg (getBall w a)).visible = false ∧
        a ∉ w.turnState.pocketedBalls ∧ isValidPlayerColor (getBall w a).color)
    · -- the head ball assigns
      rw [List.find?_cons, decide_eq_true hq] at hc
      simp only [Option.map_some'] at hc
      have hcc : (getBall w a).color = c := Option.some.inj hc
      have hassign := pocketStep_assign cfg w a hcol hq.1 hq.2.1 hq.2.2
      have hfrozen := pocketFold_colors_frozen cfg l (pocketStep cfg w a)
        (by rw [hassign.1]; exact Option.noConfusion)
      constructor
      · show (currentPlayer (l.foldl (pocketStep cfg) (pocketStep cfg w a))).color = _
        unfold currentPlayer
        rw [hfrozen.1, hfrozen.2]
        rw [hcc] at hassign
        exact hassign.1
      · show (nextPlayer (l.foldl (pocketStep cfg) (pocketStep cfg w a))).color = _
        unfold nextPlayer
        rw [hfrozen.1, hfrozen.2]
        rw [hcc] at hassign
        exact hassign.2
    · -- the head ball does not assign; recurse
      have hpd : (decide ((resolveBallInPocket cfg (getBall w a)).visible = false ∧
          a ∉ w.turnState.pocketedBalls ∧
          isValidPlayerColor (getBall w a).color)) = false := decide_eq_false hq
      rw [List.find?_cons, hpd] at hc
      have hstep := pocketStep_currentPlayer_of_no_assign cfg w a
        (fun hcon => hq ⟨hcon.1, hcon.2.1, hcon.2.2.2⟩)
      have hgb : ∀ id ∈ l, getBall (pocketStep cfg w a) id = getBall w id :=
        fun id hid => pocketStep_getBall_ne cfg w a id (fun he => hal (he ▸ hid))
      have hmem : ∀ id ∈ l, (id ∈ (pocketStep cfg w a).turnState.pocketedBalls ↔
          id ∈ w.turnState.pocketedBalls) := by
        intro id hid
        have hne : id ≠ a := fun he => hal (he ▸ hid)
        rw [pocketStep_pocketed cfg w a]
        split_ifs with hpush
        · simp [hne]
        · simp
      have hpred : ∀ id ∈ l,
          (fun id => decide ((resolveBallInPocket cfg
              (getBall (pocketStep cfg w a) id)).visible = false ∧
            id ∉ (pocketStep cfg w a).turnState.pocketedBalls ∧
            isValidPlayerColor (getBall (pocketStep cfg w a) id).color)) id =
          (fun id => decide ((resolveBallInPocket cfg (getBall w id)).visible = false ∧
            id ∉ w.turnState.pocketedBalls ∧
            isValidPlayerColor (getBall w id).color)) id := by
        intro id hid
        apply decide_eq_decide.mpr
        rw [hgb id hid]
        simp only [hmem id hid]
      have hcol1 : (currentPlayer (pocketStep cfg w a)).color = none := by
        rw [hstep.1]
        exact hcol
      -- transport the find? hypothesis to the stepped world
      have hfind : (l.find? (fun id =>
          decide ((resolveBallInPocket cfg (getBall (pocketStep cfg w a) id)).visible = false ∧
            id ∉ (pocketStep cfg w a).turnState.pocketedBalls ∧
            isValidPlayerColor (getBall (pocketStep cfg w a) id).color))).map
          (fun id => (getBall (pocketStep cfg w a) id).color) = some c := by
        rw [find?_congr_mem l _ _ hpred]
        cases hfo : l.find? (fun id =>
            decide ((resolveBallInPocket cfg (getBall w id)).visible = false ∧
              id ∉ w.turnState.pocketedBalls ∧
              isValidPlayerColor (getBall w id).color)) with
        | none =>
          rw [hfo] at hc
          simp at hc
        | some id0 =>
          rw [hfo] at hc
          simp only [Option.map_some'] at hc ⊢
          rw [hgb id0 (List.mem_of_find?_eq_some hfo)]
          exact hc
      have := ih (pocketStep cfg w a) hlnd hcol1 c hfind
      exact ⟨this.1, this.2⟩

end EightBall

namespace EightBall

lemma pocketFold_no_assign (cfg : Config) (l : List ℕ) :
    ∀ w : GameWorld, l.Nodup → (currentPlayer w).color = none →
      l.find? (fun id =>
          decide ((resolveBallInPocket cfg (getBall w id)).visible = false ∧
            id ∉ w.turnState.pocketedBalls ∧
            isValidPlayerColor (getBall w id).color)) = none →
      (l.foldl (pocketStep cfg) w).players = w.players ∧
      (l.foldl (pocketStep cfg) w).currentPlayerIndex = w.currentPlayerIndex := by
  induction l with
  | nil => exact fun w _ _ _ => ⟨rfl, rfl⟩
  | cons a l ih =>
    intro w hnd hcol hf
    have hal : a ∉ l := (List.nodup_cons.1 hnd).1
    have hlnd : l.Nodup := (List.nodup_cons.1 hnd).2
    rw [List.find?_cons] at hf
    by_cases hq : ((resolveBallInPocket cfg (getBall w a)).visible = false ∧
        a ∉ w.turnState.pocketedBalls ∧ isValidPlayerColor (getBall w a).color)
    · rw [decide_eq_true hq] at hf
      simp at hf
    · rw [decide_eq_false hq] at hf
      simp only at hf
      have hstep := pocketStep_currentPlayer_of_no_assign cfg w a
        (fun hcon => hq ⟨hcon.1, hcon.2.1, hcon.2.2.2⟩)
      have hp : (pocketStep cfg w a).players = w.players :=
        pocketStep_players_eq cfg w a (fun hcon => hq ⟨hcon.1, hcon.2.1, hcon.2.2.2⟩)
      have hi : (pocketStep cfg w a).currentPlayerIndex = w.currentPlayerIndex :=
        pocketStep_index cfg w a
      have hgb : ∀ id ∈ l, getBall (pocketStep cfg w a) id = getBall w id :=
        fun id hid => pocketStep_getBall_ne cfg w a id (fun he => hal (he ▸ hid))
      have hmem : ∀ id ∈ l, (id ∈ (pocketStep cfg w a).turnState.pocketedBalls ↔
          id ∈ w.turnState.pocketedBalls) := by
        intro id hid
        have hne : id ≠ a := fun he => hal (he ▸ hid)
        rw [pocketStep_pocketed cfg w a]
        split_ifs with hpush
        · simp [hne]
        · simp
      have hpred : ∀ id ∈ l,
          (fun id => decide ((resolveBallInPocket cfg
              (getBall (pocketStep cfg w a) id)).visible = false ∧
            id ∉ (pocketStep cfg w a).turnState.pocketedBalls ∧
            isValidPlayerColor (getBall (pocketStep cfg w a) id).color)) id =
          (fun id => decide ((resolveBallInPocket cfg (getBall w id)).visible = false ∧
            id ∉ w.turnState.pocketedBalls ∧
            isValidPlayerColor (getBall w id).color)) id := by
        intro id hid
        apply decide_eq_decide.mpr
        rw [hgb id hid]
        simp only [hmem id hid]
      have hcol1 : (currentPlayer (pocketStep cfg w a)).color = none := by
        rw [hstep.1]
        exact hcol
      have hf1 : l.find? (fun id =>
          decide ((resolveBallInPocket cfg (getBall (pocketStep cfg w a) id)).visible = false ∧
            id ∉ (pocketStep cfg w a).turnState.pocketedBalls ∧
            isValidPlayerColor (getBall (pocketStep cfg w a) id).color)) = none := by
        rw [find?_congr_mem l _ _ hpred]
        exact hf
      rw [List.foldl_cons]
      obtain ⟨hp', hi'⟩ := ih (pocketStep cfg w a) hlnd hcol1 hf1
      rw [hp', hi', hp, hi]
      exact ⟨rfl, rfl⟩

/-- The first ball reference in the play list that, this tick, is newly
found hidden in a pocket while carrying a red or yellow color, mapped to
that color; this is the ball whose processing in handleBallsInPockets
triggers the color assignment. -/
noncomputable def firstAssignColor (cfg : Config) (w : GameWorld) : Option Color :=
  (w.balls.find? (fun id =>
      decide ((resolveBallInPocket cfg (getBall w id)).visible = false ∧
        id ∉ w.turnState.pocketedBalls ∧
        isValidPlayerColor (getBall w id).color))).map
    (fun id => (getBall w id).color)

/-- Claim C8, amended: for a colorless current player, color assignment in
handleBallsInPockets is driven per ball, not per legal pocketing event:
the current player receives the color of the FIRST ball in play that
this tick lands newly pocketed with a red or yellow color (regardless of
what else is pocketed alongside it and regardless of the turn's
legality), and the opponent receives the complementary color; if no such
ball exists this tick, both players' colors are unchanged. -/
theorem c8_assign_amended (cfg : Config) (w : GameWorld)
    (hcol : (currentPlayer w).color = none) (hnd : w.balls.Nodup) :
    (∀ c : Color, firstAssignColor cfg w = some c →
      (currentPlayer (handleBallsInPockets cfg w)).color = some c ∧
      (nextPlayer (handleBallsInPockets cfg w)).color = some (otherColor c)) ∧
    (firstAssignColor cfg w = none →
      (currentPlayer (handleBallsInPockets cfg w)).color = none ∧
      (nextPlayer (handleBallsInPockets cfg w)).color = (nextPlayer w).color) := by
  constructor
  · intro c hc
    exact pocketFold_assign cfg w.balls w hnd hcol c hc
  · intro hn
    have hfn : w.balls.find? (fun id =>
        decide ((resolveBallInPocket cfg (getBall w id)).visible = false ∧
          id ∉ w.turnState.pocketedBalls ∧
          isValidPlayerColor (getBall w id).color)) = none := by
      unfold firstAssignColor at hn
      cases hfo : w.balls.find? (fun id =>
          decide ((resolveBallInPocket cfg (getBall w id)).visible = false ∧
            id ∉ w.turnState.pocketedBalls ∧
            isValidPlayerColor (getBall w id).color)) with
      | none => rfl
      | some id0 =>
        rw [hfo] at hn
        simp at hn
    have h := pocketFold_no_assign cfg w.balls w hnd hcol hfn
    unfold handleBallsInPockets currentPlayer nextPlayer
    rw [h.1, h.2]
    exact ⟨hcol, rfl⟩

end EightBall

namespace EightBall

/-- A world whose pocket processing this tick pockets one red and one
yellow ball at once while the current player is still colorless: cue
ball id 15 safely mid-table, red ball id 1 and yellow ball id 2 both
sitting in the top-left pocket. -/
noncomputable def c8World : GameWorld :=
  { stick := ⟨⟨413, 413⟩, ⟨970, 11⟩, 0, 0, false, false⟩
    store := [⟨15, ⟨413, 413⟩, Vector2.zero, false, true, Color.white⟩,
              ⟨1, ⟨62, 62⟩, Vector2.zero, false, true, Color.red⟩,
              ⟨2, ⟨62, 62⟩, Vector2.zero, false, true, Color.yellow⟩]
    balls := [15, 1, 2]
    cueBallId := 15
    eightBallId := 14
    players := fun _ => ⟨none, 0, 0⟩
    currentPlayerIndex := 0
    turnState := ⟨none, [], false, true⟩ }

noncomputable def c8w1 : GameWorld := pocketStep gameConfig c8World 15

noncomputable def c8w2 : GameWorld := pocketStep gameConfig c8w1 1

noncomputable def c8w3 : GameWorld := pocketStep gameConfig c8w2 2

lemma c8_cue_not_pocket : ¬ isInsidePocket gameConfig (⟨413, 413⟩ : Vector2) :=
  not_inside_pocket _ (by norm_num) (by norm_num) (by norm_num) (by norm_num)
    (by norm_num) (by norm_num)

lemma c8_pocket_62 : isInsidePocket gameConfig (⟨62, 62⟩ : Vector2) := by
  refine ⟨⟨62, 62⟩, ?_, ?_⟩
  · have hlist : gameConfig.pocketsPositions =
        [⟨62, 62⟩, ⟨750, 32⟩, ⟨1435, 62⟩, ⟨62, 762⟩, ⟨750, 794⟩, ⟨1435, 762⟩] := rfl
    rw [hlist]
    exact List.mem_cons_self _ _
  · have hz : (Vector2.mk (62 : ℝ) 62).distFrom ⟨62, 62⟩ = 0 := by
      unfold Vector2.distFrom Vector2.subtract Vector2.length
      norm_num
    rw [hz]
    have hrad : gameConfig.pocketRadius = (48 : ℝ) := rfl
    rw [hrad]
    norm_num

lemma c8_getBall_15 : getBall c8World 15 =
    ⟨15, ⟨413, 413⟩, Vector2.zero, false, true, Color.white⟩ := by
  norm_num [getBall, c8World, List.find?]

lemma c8_getBall_1 : getBall c8World 1 =
    ⟨1, ⟨62, 62⟩, Vector2.zero, false, true, Color.red⟩ := by
  norm_num [getBall, c8World, List.find?]

lemma c8_getBall_2 : getBall c8World 2 =
    ⟨2, ⟨62, 62⟩, Vector2.zero, false, true, Color.yellow⟩ := by
  norm_num [getBall, c8World, List.find?]

lemma c8_vis15 : (resolveBallInPocket gameConfig (getBall c8World 15)).visible = true := by
  rw [c8_getBall_15]
  unfold resolveBallInPocket
  rw [if_neg c8_cue_not_pocket]

lemma c8_vis1 : (resolveBallInPocket gameConfig (getBall c8World 1)).visible = false := by
  rw [c8_getBall_1]
  unfold resolveBallInPocket
  rw [if_pos c8_pocket_62]
  rfl

lemma c8_vis2 : (resolveBallInPocket gameConfig (getBall c8World 2)).visible = false := by
  rw [c8_getBall_2]
  unfold resolveBallInPocket
  rw [if_pos c8_pocket_62]
  rfl

lemma c8_no15 : ¬ ((resolveBallInPocket gameConfig (getBall c8World 15)).visible = false ∧
    15 ∉ c8World.turnState.pocketedBalls) := by
  intro hcon
  have h := hcon.1
  rw [c8_vis15] at h
  exact Bool.noConfusion h

lemma c8w1_getBall_1 : getBall c8w1 1 = getBall c8World 1 :=
  pocketStep_getBall_ne gameConfig c8World 15 1 (by decide)

lemma c8w1_getBall_2 : getBall c8w1 2 = getBall c8World 2 :=
  pocketStep_getBall_ne gameConfig c8World 15 2 (by decide)

lemma c8w1_pocketed : c8w1.turnState.pocketedBalls = [] := by
  unfold c8w1
  rw [pocketStep_pocketed gameConfig c8World 15, if_neg c8_no15]
  rfl

lemma c8w1_players : currentPlayer c8w1 = currentPlayer c8World ∧
    nextPlayer c8w1 = nextPlayer c8World :=
  pocketStep_currentPlayer_of_no_assign gameConfig c8World 15
    (fun hcon => c8_no15 ⟨hcon.1, hcon.2.1⟩)

lemma c8w1_colorless : (currentPlayer c8w1).color = none := by
  rw [c8w1_players.1]
  rfl

lemma c8w1_vis1 : (resolveBallInPocket gameConfig (getBall c8w1 1)).visible = false := by
  rw [c8w1_getBall_1]
  exact c8_vis1

lemma c8w1_notmem : 1 ∉ c8w1.turnState.pocketedBalls := by
  rw [c8w1_pocketed]
  simp

lemma c8w1_valid1 : isValidPlayerColor (getBall c8w1 1).color := by
  rw [c8w1_getBall_1, c8_getBall_1]
  exact Or.inl rfl

lemma c8w2_assign : (currentPlayer c8w2).color = some Color.red ∧
    (nextPlayer c8w2).color = some Color.yellow := by
  have h := pocketStep_assign gameConfig c8w1 1 c8w1_colorless c8w1_vis1 c8w1_notmem c8w1_valid1
  rw [c8w1_getBall_1, c8_getBall_1] at h
  exact ⟨h.1, h.2⟩

lemma c8w2_pocketed : c8w2.turnState.pocketedBalls = [1] := by
  unfold c8w2
  rw [pocketStep_pocketed gameConfig c8w1 1, if_pos ⟨c8w1_vis1, c8w1_notmem⟩, c8w1_pocketed]
  rfl

lemma c8w2_getBall_2 : getBall c8w2 2 = getBall c8World 2 := by
  unfold c8w2
  rw [pocketStep_getBall_ne gameConfig c8w1 1 2 (by decide), c8w1_getBall_2]

lemma c8w2_vis2 : (resolveBallInPocket gameConfig (getBall c8w2 2)).visible = false := by
  rw [c8w2_getBall_2]
  exact c8_vis2

lemma c8w2_notmem : 2 ∉ c8w2.turnState.pocketedBalls := by
  rw [c8w2_pocketed]
  simp

lemma c8w2_notnone : ¬ ((currentPlayer c8w2).color = none) := by
  rw [c8w2_assign.1]
  exact fun h => Option.noConfusion h

lemma c8w3_colors : (currentPlayer c8w3).color = some Color.red ∧
    (nextPlayer c8w3).color = some Color.yellow := by
  have h := pocketStep_currentPlayer_of_no_assign gameConfig c8w2 2
    (fun hcon => c8w2_notnone hcon.2.2.1)
  unfold c8w3
  rw [h.1, h.2]
  exact c8w2_assign

lemma c8w3_pocketed : c8w3.turnState.pocketedBalls = [1, 2] := by
  unfold c8w3
  rw [pocketStep_pocketed gameConfig c8w2 2, if_pos ⟨c8w2_vis2, c8w2_notmem⟩, c8w2_pocketed]
  rfl

lemma c8w3_color_1 : (getBall c8w3 1).color = Color.red := by
  show (getBall (pocketStep gameConfig c8w2 2) 1).color = Color.red
  rw [pocketStep_getBall_color gameConfig c8w2 2 1]
  show (getBall (pocketStep gameConfig c8w1 1) 1).color = Color.red
  rw [pocketStep_getBall_color gameConfig c8w1 1 1, c8w1_getBall_1, c8_getBall_1]

lemma c8w3_color_2 : (getBall c8w3 2).color = Color.yellow := by
  show (getBall (pocketStep gameConfig c8w2 2) 2).color = Color.yellow
  rw [pocketStep_getBall_color gameConfig c8w2 2 2]
  rw [c8w2_getBall_2, c8_getBall_2]

/-- Claim C8, counterexample: with a colorless current player, pocketing
one red and one yellow ball in the same tick is NOT an event in which
all pocketed balls share one color (the referee's pocketed-balls check
rejects it), yet the code still assigns colors: the current player gets
red (the first pocketed ball processed) and the opponent yellow. -/
theorem c8_assign_counterexample :
    (currentPlayer c8World).color = none ∧
    (currentPlayer (handleBallsInPockets gameConfig c8World)).color = some Color.red ∧
    (nextPlayer (handleBallsInPockets gameConfig c8World)).color = some Color.yellow ∧
    Referee.isValidPocketedBalls (currentPlayer c8World)
      ((handleBallsInPockets gameConfig c8World).turnState.pocketedBalls.map
        (fun id => getBall (handleBallsInPockets gameConfig c8World) id)) = false := by
  have hW : handleBallsInPockets gameConfig c8World = c8w3 := rfl
  rw [hW]
  refine ⟨rfl, c8w3_colors.1, c8w3_colors.2, ?_⟩
  rw [c8w3_pocketed]
  simp only [List.map_cons, List.map_nil]
  have hcp : currentPlayer c8World = ⟨none, 0, 0⟩ := rfl
  rw [hcp]
  simp [Referee.isValidPocketedBalls, c8w3_color_1, c8w3_color_2]

end EightBall

namespace EightBall

lemma c8_pred15_false : (decide ((resolveBallInPocket gameConfig
    (getBall c8World 15)).visible = false ∧
    15 ∉ c8World.turnState.pocketedBalls ∧
    isValidPlayerColor (getBall c8World 15).color)) = false := by
  apply decide_eq_false
  intro hcon
  exact c8_no15 ⟨hcon.1, hcon.2.1⟩

lemma c8_pred1_true : (decide ((resolveBallInPocket gameConfig
    (getBall c8World 1)).visible = false ∧
    1 ∉ c8World.turnState.pocketedBalls ∧
    isValidPlayerColor (getBall c8World 1).color)) = true := by
  apply decide_eq_true
  refine ⟨c8_vis1, ?_, ?_⟩
  · simp [c8World]
  · rw [c8_getBall_1]
    exact Or.inl rfl

lemma c8_firstAssignColor : firstAssignColor gameConfig c8World = some Color.red := by
  unfold firstAssignColor
  have hb : c8World.balls = [15, 1, 2] := rfl
  rw [hb]
  simp only [List.find?_cons, c8_pred15_false, c8_pred1_true, Option.map_some']
  rw [c8_getBall_1]

/-- Claim C8, witness: in the two-ball pocketing world the first newly
pocketed red/yellow ball is the red one, and the amended theorem
instantiates to red for the current player and yellow for the
opponent. -/
theorem c8_assign_witness :
    (currentPlayer c8World).color = none ∧ c8World.balls.Nodup ∧
    firstAssignColor gameConfig c8World = some Color.red ∧
    (currentPlayer (handleBallsInPockets gameConfig c8World)).color = some Color.red ∧
    (nextPlayer (handleBallsInPockets gameConfig c8World)).color =
      some (otherColor Color.red) := by
  have hcol : (currentPlayer c8World).color = none := rfl
  have hnd : c8World.balls.Nodup := by decide
  have h := (c8_assign_amended gameConfig c8World hcol hnd).1 Color.red c8_firstAssignColor
  exact ⟨hcol, hnd, c8_firstAssignColor, h.1, h.2⟩

end EightBall

namespace EightBall

lemma gc_friction : gameConfig.friction = 0.018 := rfl

lemma gc_loss : gameConfig.collisionLoss = 0.018 := rfl

lemma gc_diam : gameConfig.diameter = 38 := rfl

lemma gc_cushion : gameConfig.cushionWidth = 57 := rfl

lemma gc_sizeX : gameConfig.gameSizeX = 1500 := rfl

lemma gc_sizeY : gameConfig.gameSizeY = 825 := rfl

lemma gc_minv : gameConfig.minVelocityLength = 0.05 := rfl

lemma topB_iff (p : Vector2) : isBallPosOutsideTopBorder gameConfig p ↔ p.y ≤ 76 := by
  unfold isBallPosOutsideTopBorder
  rw [gc_diam, gc_cushion]
  constructor <;> intro h <;> linarith

lemma leftB_iff (p : Vector2) : isBallPosOutsideLeftBorder gameConfig p ↔ p.x ≤ 76 := by
  unfold isBallPosOutsideLeftBorder
  rw [gc_diam, gc_cushion]
  constructor <;> intro h <;> linarith

lemma rightB_iff (p : Vector2) : isBallPosOutsideRightBorder gameConfig p ↔ 1424 ≤ p.x := by
  unfold isBallPosOutsideRightBorder
  rw [gc_diam, gc_cushion, gc_sizeX]
  constructor <;> intro h <;> linarith

lemma botB_iff (p : Vector2) : isBallPosOutsideBottomBorder gameConfig p ↔ 749 ≤ p.y := by
  unfold isBallPosOutsideBottomBorder
  rw [gc_diam, gc_cushion, gc_sizeY]
  constructor <;> intro h <;> linarith

lemma nextPos_x (b : Ball) : (b.nextPosition gameConfig).x =
    b.pos.x + b.vel.x * (1 - 0.018) := by
  unfold Ball.nextPosition Vector2.add Vector2.mult
  rw [gc_friction]

lemma nextPos_y (b : Ball) : (b.nextPosition gameConfig).y =
    b.pos.y + b.vel.y * (1 - 0.018) := by
  unfold Ball.nextPosition Vector2.add Vector2.mult
  rw [gc_friction]

lemma handleTop_eq (b : Ball) : handleCollisionWithTopCushion gameConfig b =
    Ball.setVelocity { b with pos := ⟨b.pos.x, 76⟩ } ⟨b.vel.x, -b.vel.y⟩ := by
  unfold handleCollisionWithTopCushion Ball.setVelocity Vector2.addY
  dsimp only
  have hp : Vector2.mk b.pos.x
      (b.pos.y + (gameConfig.cushionWidth - b.pos.y + gameConfig.diameter / 2)) =
      ⟨b.pos.x, 76⟩ := by
    rw [gc_diam, gc_cushion, Vector2.mk.injEq]
    constructor
    · rfl
    · ring
  rw [hp]

lemma handleLeft_eq (b : Ball) : handleCollisionWithLeftCushion gameConfig b =
    Ball.setVelocity { b with pos := ⟨76, b.pos.y⟩ } ⟨-b.vel.x, b.vel.y⟩ := by
  unfold handleCollisionWithLeftCushion Ball.setVelocity Vector2.addX
  dsimp only
  have hp : Vector2.mk
      (b.pos.x + (gameConfig.cushionWidth - b.pos.x + gameConfig.diameter / 2)) b.pos.y =
      ⟨76, b.pos.y⟩ := by
    rw [gc_diam, gc_cushion, Vector2.mk.injEq]
    constructor
    · ring
    · rfl
  rw [hp]

lemma handleRight_eq (b : Ball) : handleCollisionWithRightCushion gameConfig b =
    Ball.setVelocity { b with pos := ⟨1424, b.pos.y⟩ } ⟨-b.vel.x, b.vel.y⟩ := by
  unfold handleCollisionWithRightCushion Ball.setVelocity Vector2.addX
  dsimp only
  have hp : Vector2.mk
      (b.pos.x + (gameConfig.gameSizeX - gameConfig.cushionWidth - b.pos.x -
        gameConfig.diameter / 2)) b.pos.y = ⟨1424, b.pos.y⟩ := by
    rw [gc_diam, gc_cushion, gc_sizeX, Vector2.mk.injEq]
    constructor
    · ring
    · rfl
  rw [hp]

lemma handleBottom_eq (b : Ball) : handleCollisionWithBottomCushion gameConfig b =
    Ball.setVelocity { b with pos := ⟨b.pos.x, 749⟩ } ⟨b.vel.x, -b.vel.y⟩ := by
  unfold handleCollisionWithBottomCushion Ball.setVelocity Vector2.addY
  dsimp only
  have hp : Vector2.mk b.pos.x
      (b.pos.y + (gameConfig.gameSizeY - gameConfig.cushionWidth - b.pos.y -
        gameConfig.diameter / 2)) = ⟨b.pos.x, 749⟩ := by
    rw [gc_diam, gc_cushion, gc_sizeY, Vector2.mk.injEq]
    constructor
    · rfl
    · ring
  rw [hp]

lemma nextPos_setVelocity (b : Ball) (p v : Vector2) :
    (Ball.setVelocity { b with pos := p } v).nextPosition gameConfig =
      p.add (v.mult (1 - gameConfig.friction)) := rfl

lemma sum_sq_ne_right {a c : ℝ} (h : c ≠ 0) : a ^ 2 + c ^ 2 ≠ 0 := by
  have h2 : 0 < c ^ 2 := by
    rw [← sq_abs]
    exact pow_pos (abs_pos.2 h) 2
  have h3 := sq_nonneg a
  intro h0
  linarith

lemma sum_sq_ne_left {a c : ℝ} (h : a ≠ 0) : a ^ 2 + c ^ 2 ≠ 0 := by
  have h2 : 0 < a ^ 2 := by
    rw [← sq_abs]
    exact pow_pos (abs_pos.2 h) 2
  have h3 := sq_nonneg c
  intro h0
  linarith

lemma setVelocity_moving_of_sq (b : Ball) (v : Vector2) (h : v.x ^ 2 + v.y ^ 2 ≠ 0) :
    (b.setVelocity v).moving = true := by
  unfold Ball.setVelocity
  exact decide_eq_true (Vector2.length_pos v h)

lemma Ball.update_pos_of_moving (cfg : Config) (b : Ball) (h : b.moving = true) :
    (Ball.update cfg b).pos = b.pos.add (b.vel.mult (1 - cfg.friction)) := by
  unfold Ball.update
  rw [h, if_pos rfl]
  dsimp only
  split_ifs <;> rfl

lemma Ball.update_not_moving (cfg : Config) (b : Ball) (h : b.moving = false) :
    Ball.update cfg b = b := by
  unfold Ball.update
  rw [h]
  rfl

lemma update_setVelocity_pos (b : Ball) (p v : Vector2) (h : v.x ^ 2 + v.y ^ 2 ≠ 0) :
    (Ball.update gameConfig (Ball.setVelocity { b with pos := p } v)).pos =
      p.add (v.mult (1 - gameConfig.friction)) := by
  rw [Ball.update_pos_of_moving gameConfig _ (setVelocity_moving_of_sq _ v h)]
  rfl

end EightBall

namespace EightBall

lemma setVelocity_pos (b : Ball) (v : Vector2) : (Ball.setVelocity b v).pos = b.pos := rfl

lemma setVelocity_vel (b : Ball) (v : Vector2) : (Ball.setVelocity b v).vel = v := rfl

lemma setVelocity_setVelocity (b : Ball) (v w : Vector2) :
    (b.setVelocity v).setVelocity w = b.setVelocity w := rfl

end EightBall

namespace EightBall


lemma handleLeft_setVelocity (b0 : Ball) (p v : Vector2) :
    handleCollisionWithLeftCushion gameConfig (Ball.setVelocity { b0 with pos := p } v) =
      Ball.setVelocity { b0 with pos := ⟨76, p.y⟩ } ⟨-v.x, v.y⟩ := by
  rw [handleLeft_eq]
  simp only [setVelocity_pos, setVelocity_vel]
  rfl

lemma handleRight_setVelocity (b0 : Ball) (p v : Vector2) :
    handleCollisionWithRightCushion gameConfig (Ball.setVelocity { b0 with pos := p } v) =
      Ball.setVelocity { b0 with pos := ⟨1424, p.y⟩ } ⟨-v.x, v.y⟩ := by
  rw [handleRight_eq]
  simp only [setVelocity_pos, setVelocity_vel]
  rfl

lemma handleBottom_setVelocity (b0 : Ball) (p v : Vector2) :
    handleCollisionWithBottomCushion gameConfig (Ball.setVelocity { b0 with pos := p } v) =
      Ball.setVelocity { b0 with pos := ⟨p.x, 749⟩ } ⟨v.x, -v.y⟩ := by
  rw [handleBottom_eq]
  simp only [setVelocity_pos, setVelocity_vel]
  rfl

end EightBall

namespace EightBall

/-- Claim C4, amended: cushion collision is indeed tested against the
projected next position and, on a top-cushion crossing with no
simultaneous side crossing, the ball is clamped back to the inside edge
of the top cushion, its vertical velocity component is inverted and the
energy-loss scaling is applied; and the no-tunneling conclusion holds
for a ball that starts strictly inside the borders with both velocity
components bounded by 500 in magnitude (without such a speed bound the
resolved position can end the tick outside the table, so the claim's
unconditional no-tunneling is false). -/
theorem c4_cushion_amended (b : Ball)
    (hinT : ¬ isBallPosOutsideTopBorder gameConfig b.pos)
    (hinL : ¬ isBallPosOutsideLeftBorder gameConfig b.pos)
    (hinR : ¬ isBallPosOutsideRightBorder gameConfig b.pos)
    (hinB : ¬ isBallPosOutsideBottomBorder gameConfig b.pos)
    (hvx : |b.vel.x| ≤ 500) (hvy : |b.vel.y| ≤ 500) :
    (isBallPosOutsideTopBorder gameConfig (b.nextPosition gameConfig) →
      ¬ isBallPosOutsideLeftBorder gameConfig (b.nextPosition gameConfig) →
      ¬ isBallPosOutsideRightBorder gameConfig (b.nextPosition gameConfig) →
      resolveBallCollisionWithCushion gameConfig b =
        Ball.setVelocity { b with pos := ⟨b.pos.x, 76⟩ }
          (Vector2.mult ⟨b.vel.x, -b.vel.y⟩ (1 - gameConfig.collisionLoss))) ∧
    (¬ isBallPosOutsideTopBorder gameConfig
        (Ball.update gameConfig (resolveBallCollisionWithCushion gameConfig b)).pos ∧
      ¬ isBallPosOutsideLeftBorder gameConfig
        (Ball.update gameConfig (resolveBallCollisionWithCushion gameConfig b)).pos ∧
      ¬ isBallPosOutsideRightBorder gameConfig
        (Ball.update gameConfig (resolveBallCollisionWithCushion gameConfig b)).pos ∧
      ¬ isBallPosOutsideBottomBorder gameConfig
        (Ball.update gameConfig (resolveBallCollisionWithCushion gameConfig b)).pos) := by
  have hvx1 := (abs_le.1 hvx).1
  have hvx2 := (abs_le.1 hvx).2
  have hvy1 := (abs_le.1 hvy).1
  have hvy2 := (abs_le.1 hvy).2
  rw [topB_iff] at hinT
  rw [leftB_iff] at hinL
  rw [rightB_iff] at hinR
  rw [botB_iff] at hinB
  have hT0 : 76 < b.pos.y := not_le.1 hinT
  have hL0 : 76 < b.pos.x := not_le.1 hinL
  have hR0 : b.pos.x < 1424 := not_le.1 hinR
  have hB0 : b.pos.y < 749 := not_le.1 hinB
  have hkne : (1 - gameConfig.collisionLoss) ≠ 0 := by
    rw [gc_loss]
    norm_num
  constructor
  · -- the top-cushion mechanism
    intro hT hL hR
    have hTn := hT
    rw [topB_iff, nextPos_y] at hTn
    have hvyneg : b.vel.y < 0 := by linarith
    have hLn := hL
    rw [leftB_iff, nextPos_x] at hLn
    have hLx := not_le.1 hLn
    have hRn := hR
    rw [rightB_iff, nextPos_x] at hRn
    have hRx := not_le.1 hRn
    unfold resolveBallCollisionWithCushion
    dsimp only
    rw [if_pos hT]
    dsimp only
    rw [handleTop_eq b]
    have hL2 : ¬ isBallPosOutsideLeftBorder gameConfig
        ((Ball.setVelocity { b with pos := ⟨b.pos.x, 76⟩ }
          ⟨b.vel.x, -b.vel.y⟩).nextPosition gameConfig) := by
      rw [leftB_iff, nextPos_setVelocity]
      simp only [Vector2.add, Vector2.mult, gc_friction]
      intro h
      linarith
    rw [if_neg hL2]
    have hR2 : ¬ isBallPosOutsideRightBorder gameConfig
        ((Ball.setVelocity { b with pos := ⟨b.pos.x, 76⟩ }
          ⟨b.vel.x, -b.vel.y⟩).nextPosition gameConfig) := by
      rw [rightB_iff, nextPos_setVelocity]
      simp only [Vector2.add, Vector2.mult, gc_friction]
      intro h
      linarith
    rw [if_neg hR2]
    have hB2 : ¬ isBallPosOutsideBottomBorder gameConfig
        ((Ball.setVelocity { b with pos := ⟨b.pos.x, 76⟩ }
          ⟨b.vel.x, -b.vel.y⟩).nextPosition gameConfig) := by
      rw [botB_iff, nextPos_setVelocity]
      simp only [Vector2.add, Vector2.mult, gc_friction]
      intro h
      linarith
    rw [if_neg hB2]
    rw [if_pos rfl]
    rfl
  · -- no tunneling under the speed bound
    unfold resolveBallCollisionWithCushion
    dsimp only
    by_cases hT : isBallPosOutsideTopBorder gameConfig (b.nextPosition gameConfig)
    · rw [if_pos hT]
      dsimp only
      rw [handleTop_eq b]
      have hTn := hT
      rw [topB_iff, nextPos_y] at hTn
      have hvyneg : b.vel.y < 0 := by linarith
      have hcney : -b.vel.y * (1 - gameConfig.collisionLoss) ≠ 0 :=
        mul_ne_zero (by intro h0; rw [neg_eq_zero] at h0; linarith) hkne
      by_cases hL : isBallPosOutsideLeftBorder gameConfig
          ((Ball.setVelocity { b with pos := ⟨b.pos.x, 76⟩ }
            ⟨b.vel.x, -b.vel.y⟩).nextPosition gameConfig)
      · -- top and left cushions this tick
        have hLn := hL
        rw [leftB_iff, nextPos_setVelocity] at hLn
        simp only [Vector2.add, Vector2.mult, gc_friction] at hLn
        have hvxneg : b.vel.x < 0 := by linarith
        rw [if_pos hL]
        dsimp only
        rw [handleLeft_setVelocity]
        dsimp only
        have hR2 : ¬ isBallPosOutsideRightBorder gameConfig
            ((Ball.setVelocity { b with pos := ⟨76, 76⟩ }
              ⟨-b.vel.x, -b.vel.y⟩).nextPosition gameConfig) := by
          rw [rightB_iff, nextPos_setVelocity]
          simp only [Vector2.add, Vector2.mult, gc_friction]
          intro h
          linarith
        rw [if_neg hR2]
        have hB2 : ¬ isBallPosOutsideBottomBorder gameConfig
            ((Ball.setVelocity { b with pos := ⟨76, 76⟩ }
              ⟨-b.vel.x, -b.vel.y⟩).nextPosition gameConfig) := by
          rw [botB_iff, nextPos_setVelocity]
          simp only [Vector2.add, Vector2.mult, gc_friction]
          intro h
          linarith
        rw [if_neg hB2]
        rw [if_pos rfl]
        simp only [setVelocity_setVelocity, setVelocity_vel, Vector2.mult]
        rw [update_setVelocity_pos b ⟨76, 76⟩
          ⟨-b.vel.x * (1 - gameConfig.collisionLoss),
            -b.vel.y * (1 - gameConfig.collisionLoss)⟩ (sum_sq_ne_right hcney)]
        refine ⟨?_, ?_, ?_, ?_⟩
        · rw [topB_iff]
          simp only [Vector2.add, Vector2.mult, gc_friction, gc_loss]
          intro h
          linarith
        · rw [leftB_iff]
          simp only [Vector2.add, Vector2.mult, gc_friction, gc_loss]
          intro h
          linarith
        · rw [rightB_iff]
          simp only [Vector2.add, Vector2.mult, gc_friction, gc_loss]
          intro h
          linarith
        · rw [botB_iff]
          simp only [Vector2.add, Vector2.mult, gc_friction, gc_loss]
          intro h
          linarith
      · -- top cushion, possibly with the right one
        by_cases hR : isBallPosOutsideRightBorder gameConfig
            ((Ball.setVelocity { b with pos := ⟨b.pos.x, 76⟩ }
              ⟨b.vel.x, -b.vel.y⟩).nextPosition gameConfig)
        · -- top and right cushions this tick
          have hRn := hR
          rw [rightB_iff, nextPos_setVelocity] at hRn
          simp only [Vector2.add, Vector2.mult, gc_friction] at hRn
          have hvxpos : 0 < b.vel.x := by linarith
          rw [if_neg hL, if_pos hR]
          dsimp only
          rw [handleRight_setVelocity]
          dsimp only
          have hB2 : ¬ isBallPosOutsideBottomBorder gameConfig
              ((Ball.setVelocity { b with pos := ⟨1424, 76⟩ }
                ⟨-b.vel.x, -b.vel.y⟩).nextPosition gameConfig) := by
            rw [botB_iff, nextPos_setVelocity]
            simp only [Vector2.add, Vector2.mult, gc_friction]
            intro h
            linarith
          rw [if_neg hB2]
          rw [if_pos rfl]
          simp only [setVelocity_setVelocity, setVelocity_vel, Vector2.mult]
          rw [update_setVelocity_pos b ⟨1424, 76⟩
            ⟨-b.vel.x * (1 - gameConfig.collisionLoss),
              -b.vel.y * (1 - gameConfig.collisionLoss)⟩ (sum_sq_ne_right hcney)]
          refine ⟨?_, ?_, ?_, ?_⟩
          · rw [topB_iff]
            simp only [Vector2.add, Vector2.mult, gc_friction, gc_loss]
            intro h
            linarith
          · rw [leftB_iff]
            simp only [Vector2.add, Vector2.mult, gc_friction, gc_loss]
            intro h
            linarith
          · rw [rightB_iff]
            simp only [Vector2.add, Vector2.mult, gc_friction, gc_loss]
            intro h
            linarith
          · rw [botB_iff]
            simp only [Vector2.add, Vector2.mult, gc_friction, gc_loss]
            intro h
            linarith
        · -- top cushion only
          have hLn := hL
          rw [leftB_iff, nextPos_setVelocity] at hLn
          simp only [Vector2.add, Vector2.mult, gc_friction] at hLn
          have hLx := not_le.1 hLn
          have hRn := hR
          rw [rightB_iff, nextPos_setVelocity] at hRn
          simp only [Vector2.add, Vector2.mult, gc_friction] at hRn
          have hRx := not_le.1 hRn
          rw [if_neg hL, if_neg hR]
          have hB2 : ¬ isBallPosOutsideBottomBorder gameConfig
              ((Ball.setVelocity { b with pos := ⟨b.pos.x, 76⟩ }
                ⟨b.vel.x, -b.vel.y⟩).nextPosition gameConfig) := by
            rw [botB_iff, nextPos_setVelocity]
            simp only [Vector2.add, Vector2.mult, gc_friction]
            intro h
            linarith
          rw [if_neg hB2]
          rw [if_pos rfl]
          simp only [setVelocity_setVelocity, setVelocity_vel, Vector2.mult]
          rw [update_setVelocity_pos b ⟨b.pos.x, 76⟩
            ⟨b.vel.x * (1 - gameConfig.collisionLoss),
              -b.vel.y * (1 - gameConfig.collisionLoss)⟩ (sum_sq_ne_right hcney)]
          refine ⟨?_, ?_, ?_, ?_⟩
          · rw [topB_iff]
            simp only [Vector2.add, Vector2.mult, gc_friction, gc_loss]
            intro h
            linarith
          · rw [leftB_iff]
            simp only [Vector2.add, Vector2.mult, gc_friction, gc_loss]
            intro h
            linarith
          · rw [rightB_iff]
            simp only [Vector2.add, Vector2.mult, gc_friction, gc_loss]
            intro h
            linarith
          · rw [botB_iff]
            simp only [Vector2.add, Vector2.mult, gc_friction, gc_loss]
            intro h
            linarith
    · -- no top crossing
      rw [if_neg hT]
      dsimp only
      have hTn := hT
      rw [topB_iff, nextPos_y] at hTn
      have hTy := not_le.1 hTn
      by_cases hL : isBallPosOutsideLeftBorder gameConfig (b.nextPosition gameConfig)
      · -- left cushion
        have hLn := hL
        rw [leftB_iff, nextPos_x] at hLn
        have hvxneg : b.vel.x < 0 := by linarith
        have hcnex : -b.vel.x * (1 - gameConfig.collisionLoss) ≠ 0 :=
          mul_ne_zero (by intro h0; rw [neg_eq_zero] at h0; linarith) hkne
        rw [if_pos hL]
        dsimp only
        rw [handleLeft_eq b]
        have hR2 : ¬ isBallPosOutsideRightBorder gameConfig
            ((Ball.setVelocity { b with pos := ⟨76, b.pos.y⟩ }
              ⟨-b.vel.x, b.vel.y⟩).nextPosition gameConfig) := by
          rw [rightB_iff, nextPos_setVelocity]
          simp only [Vector2.add, Vector2.mult, gc_friction]
          intro h
          linarith
        rw [if_neg hR2]
        by_cases hB : isBallPosOutsideBottomBorder gameConfig
            ((Ball.setVelocity { b with pos := ⟨76, b.pos.y⟩ }
              ⟨-b.vel.x, b.vel.y⟩).nextPosition gameConfig)
        · -- left and bottom cushions this tick
          have hBn := hB
          rw [botB_iff, nextPos_setVelocity] at hBn
          simp only [Vector2.add, Vector2.mult, gc_friction] at hBn
          have hvypos : 0 < b.vel.y := by linarith
          have hcney : -b.vel.y * (1 - gameConfig.collisionLoss) ≠ 0 :=
            mul_ne_zero (by intro h0; rw [neg_eq_zero] at h0; linarith) hkne
          rw [if_pos hB]
          dsimp only
          rw [handleBottom_setVelocity]
          dsimp only
          rw [if_pos rfl]
          simp only [setVelocity_setVelocity, setVelocity_vel, Vector2.mult]
          rw [update_setVelocity_pos b ⟨76, 749⟩
            ⟨-b.vel.x * (1 - gameConfig.collisionLoss),
              -b.vel.y * (1 - gameConfig.collisionLoss)⟩ (sum_sq_ne_right hcney)]
          refine ⟨?_, ?_, ?_, ?_⟩
          · rw [topB_iff]
            simp only [Vector2.add, Vector2.mult, gc_friction, gc_loss]
            intro h
            linarith
          · rw [leftB_iff]
            simp only [Vector2.add, Vector2.mult, gc_friction, gc_loss]
            intro h
            linarith
          · rw [rightB_iff]
            simp only [Vector2.add, Vector2.mult, gc_friction, gc_loss]
            intro h
            linarith
          · rw [botB_iff]
            simp only [Vector2.add, Vector2.mult, gc_friction, gc_loss]
            intro h
            linarith
        · -- left cushion only
          have hBn := hB
          rw [botB_iff, nextPos_setVelocity] at hBn
          simp only [Vector2.add, Vector2.mult, gc_friction] at hBn
          have hBy := not_le.1 hBn
          rw [if_neg hB]
          rw [if_pos rfl]
          simp only [setVelocity_setVelocity, setVelocity_vel, Vector2.mult]
          rw [update_setVelocity_pos b ⟨76, b.pos.y⟩
            ⟨-b.vel.x * (1 - gameConfig.collisionLoss),
              b.vel.y * (1 - gameConfig.collisionLoss)⟩ (sum_sq_ne_left hcnex)]
          refine ⟨?_, ?_, ?_, ?_⟩
          · rw [topB_iff]
            simp only [Vector2.add, Vector2.mult, gc_friction, gc_loss]
            intro h
            linarith
          · rw [leftB_iff]
            simp only [Vector2.add, Vector2.mult, gc_friction, gc_loss]
            intro h
            linarith
          · rw [rightB_iff]
            simp only [Vector2.add, Vector2.mult, gc_friction, gc_loss]
            intro h
            linarith
          · rw [botB_iff]
            simp only [Vector2.add, Vector2.mult, gc_friction, gc_loss]
            intro h
            linarith
      · -- no left crossing
        by_cases hR : isBallPosOutsideRightBorder gameConfig (b.nextPosition gameConfig)
        · -- right cushion
          have hRn := hR
          rw [rightB_iff, nextPos_x] at hRn
          have hvxpos : 0 < b.vel.x := by linarith
          have hcnex : -b.vel.x * (1 - gameConfig.collisionLoss) ≠ 0 :=
            mul_ne_zero (by intro h0; rw [neg_eq_zero] at h0; linarith) hkne
          rw [if_neg hL, if_pos hR]
          dsimp only
          rw [handleRight_eq b]
          by_cases hB : isBallPosOutsideBottomBorder gameConfig
              ((Ball.setVelocity { b with pos := ⟨1424, b.pos.y⟩ }
                ⟨-b.vel.x, b.vel.y⟩).nextPosition gameConfig)
          · -- right and bottom cushions this tick
            have hBn := hB
            rw [botB_iff, nextPos_setVelocity] at hBn
            simp only [Vector2.add, Vector2.mult, gc_friction] at hBn
            have hvypos : 0 < b.vel.y := by linarith
            have hcney : -b.vel.y * (1 - gameConfig.collisionLoss) ≠ 0 :=
              mul_ne_zero (by intro h0; rw [neg_eq_zero] at h0; linarith) hkne
            rw [if_pos hB]
            dsimp only
            rw [handleBottom_setVelocity]
            dsimp only
            rw [if_pos rfl]
            simp only [setVelocity_setVelocity, setVelocity_vel, Vector2.mult]
            rw [update_setVelocity_pos b ⟨1424, 749⟩
              ⟨-b.vel.x * (1 - gameConfig.collisionLoss),
                -b.vel.y * (1 - gameConfig.collisionLoss)⟩ (sum_sq_ne_right hcney)]
            refine ⟨?_, ?_, ?_, ?_⟩
            · rw [topB_iff]
              simp only [Vector2.add, Vector2.mult, gc_friction, gc_loss]
              intro h
              linarith
            · rw [leftB_iff]
              simp only [Vector2.add, Vector2.mult, gc_friction, gc_loss]
              intro h
              linarith
            · rw [rightB_iff]
              simp only [Vector2.add, Vector2.mult, gc_friction, gc_loss]
              intro h
              linarith
            · rw [botB_iff]
              simp only [Vector2.add, Vector2.mult, gc_friction, gc_loss]
              intro h
              linarith
          · -- right cushion only
            have hBn := hB
            rw [botB_iff, nextPos_setVelocity] at hBn
            simp only [Vector2.add, Vector2.mult, gc_friction] at hBn
            have hBy := not_le.1 hBn
            rw [if_neg hB]
            rw [if_pos rfl]
            simp only [setVelocity_setVelocity, setVelocity_vel, Vector2.mult]
            rw [update_setVelocity_pos b ⟨1424, b.pos.y⟩
              ⟨-b.vel.x * (1 - gameConfig.collisionLoss),
                b.vel.y * (1 - gameConfig.collisionLoss)⟩ (sum_sq_ne_left hcnex)]
            refine ⟨?_, ?_, ?_, ?_⟩
            · rw [topB_iff]
              simp only [Vector2.add, Vector2.mult, gc_friction, gc_loss]
              intro h
              linarith
            · rw [leftB_iff]
              simp only [Vector2.add, Vector2.mult, gc_friction, gc_loss]
              intro h
              linarith
            · rw [rightB_iff]
              simp only [Vector2.add, Vector2.mult, gc_friction, gc_loss]
              intro h
              linarith
            · rw [botB_iff]
              simp only [Vector2.add, Vector2.mult, gc_friction, gc_loss]
              intro h
              linarith
        · -- neither side cushion
          rw [if_neg hL, if_neg hR]
          have hLn := hL
          rw [leftB_iff, nextPos_x] at hLn
          have hLx := not_le.1 hLn
          have hRn := hR
          rw [rightB_iff, nextPos_x] at hRn
          have hRx := not_le.1 hRn
          by_cases hB : isBallPosOutsideBottomBorder gameConfig (b.nextPosition gameConfig)
          · -- bottom cushion only
            have hBn := hB
            rw [botB_iff, nextPos_y] at hBn
            have hvypos : 0 < b.vel.y := by linarith
            have hcney : -b.vel.y * (1 - gameConfig.collisionLoss) ≠ 0 :=
              mul_ne_zero (by intro h0; rw [neg_eq_zero] at h0; linarith) hkne
            rw [if_pos hB]
            dsimp only
            rw [handleBottom_eq b]
            rw [if_pos rfl]
            simp only [setVelocity_setVelocity, setVelocity_vel, Vector2.mult]
            rw [update_setVelocity_pos b ⟨b.pos.x, 749⟩
              ⟨b.vel.x * (1 - gameConfig.collisionLoss),
                -b.vel.y * (1 - gameConfig.collisionLoss)⟩ (sum_sq_ne_right hcney)]
            refine ⟨?_, ?_, ?_, ?_⟩
            · rw [topB_iff]
              simp only [Vector2.add, Vector2.mult, gc_friction, gc_loss]
              intro h
              linarith
            · rw [leftB_iff]
              simp only [Vector2.add, Vector2.mult, gc_friction, gc_loss]
              intro h
              linarith
            · rw [rightB_iff]
              simp only [Vector2.add, Vector2.mult, gc_friction, gc_loss]
              intro h
              linarith
            · rw [botB_iff]
              simp only [Vector2.add, Vector2.mult, gc_friction, gc_loss]
              intro h
              linarith
          · -- no cushion at all
            have hBn := hB
            rw [botB_iff, nextPos_y] at hBn
            have hBy := not_le.1 hBn
            rw [if_neg hB]
            rw [if_neg Bool.false_ne_true]
            cases hm : b.moving with
            | false =>
              rw [Ball.update_not_moving gameConfig b hm]
              refine ⟨?_, ?_, ?_, ?_⟩
              · rw [topB_iff]
                intro h
                linarith
              · rw [leftB_iff]
                intro h
                linarith
              · rw [rightB_iff]
                intro h
                linarith
              · rw [botB_iff]
                intro h
                linarith
            | true =>
              rw [Ball.update_pos_of_moving gameConfig b hm]
              refine ⟨?_, ?_, ?_, ?_⟩
              · rw [topB_iff]
                simp only [Vector2.add, Vector2.mult, gc_friction]
                intro h
                linarith
              · rw [leftB_iff]
                simp only [Vector2.add, Vector2.mult, gc_friction]
                intro h
                linarith
              · rw [rightB_iff]
                simp only [Vector2.add, Vector2.mult, gc_friction]
                intro h
                linarith
              · rw [botB_iff]
                simp only [Vector2.add, Vector2.mult, gc_friction]
                intro h
                linarith

end EightBall

namespace EightBall

/-- A legally placed, fast ball: strictly inside the borders at
(750, 400), moving straight up at speed 1000. -/
noncomputable def c4Ball : Ball := ⟨0, ⟨750, 400⟩, ⟨0, -1000⟩, true, true, Color.white⟩

/-- Claim C4, counterexample: the ball starts strictly inside the table
and its projected next position crosses the top cushion, yet after the
cushion resolution and the position update of the same tick the ball
sits far above the top border: the top handler clamps it to y = 76 and
reflects the velocity, but the reflected velocity is so large that the
bottom check (re-read from the updated state) also fires, clamps the
ball to y = 749 and reflects the velocity downward again, and the tick's
movement then carries the ball to y = -215.324 — outside the table, so
the claim's unconditional no-tunneling guarantee is false. -/
theorem c4_cushion_counterexample :
    (¬ isBallPosOutsideTopBorder gameConfig c4Ball.pos ∧
     ¬ isBallPosOutsideLeftBorder gameConfig c4Ball.pos ∧
     ¬ isBallPosOutsideRightBorder gameConfig c4Ball.pos ∧
     ¬ isBallPosOutsideBottomBorder gameConfig c4Ball.pos) ∧
    isBallPosOutsideTopBorder gameConfig (c4Ball.nextPosition gameConfig) ∧
    isBallPosOutsideTopBorder gameConfig
      (Ball.update gameConfig (resolveBallCollisionWithCushion gameConfig c4Ball)).pos := by
  have hT : isBallPosOutsideTopBorder gameConfig (c4Ball.nextPosition gameConfig) := by
    rw [topB_iff, nextPos_y]
    norm_num [c4Ball]
  refine ⟨⟨?_, ?_, ?_, ?_⟩, hT, ?_⟩
  · rw [topB_iff]
    norm_num [c4Ball]
  · rw [leftB_iff]
    norm_num [c4Ball]
  · rw [rightB_iff]
    norm_num [c4Ball]
  · rw [botB_iff]
    norm_num [c4Ball]
  · unfold resolveBallCollisionWithCushion
    dsimp only
    rw [if_pos hT]
    dsimp only
    rw [handleTop_eq c4Ball]
    have hL2 : ¬ isBallPosOutsideLeftBorder gameConfig
        ((Ball.setVelocity { c4Ball with pos := ⟨c4Ball.pos.x, 76⟩ }
          ⟨c4Ball.vel.x, -c4Ball.vel.y⟩).nextPosition gameConfig) := by
      rw [leftB_iff, nextPos_setVelocity]
      simp only [Vector2.add, Vector2.mult, gc_friction]
      norm_num [c4Ball]
    rw [if_neg hL2]
    have hR2 : ¬ isBallPosOutsideRightBorder gameConfig
        ((Ball.setVelocity { c4Ball with pos := ⟨c4Ball.pos.x, 76⟩ }
          ⟨c4Ball.vel.x, -c4Ball.vel.y⟩).nextPosition gameConfig) := by
      rw [rightB_iff, nextPos_setVelocity]
      simp only [Vector2.add, Vector2.mult, gc_friction]
      norm_num [c4Ball]
    rw [if_neg hR2]
    have hB2 : isBallPosOutsideBottomBorder gameConfig
        ((Ball.setVelocity { c4Ball with pos := ⟨c4Ball.pos.x, 76⟩ }
          ⟨c4Ball.vel.x, -c4Ball.vel.y⟩).nextPosition gameConfig) := by
      rw [botB_iff, nextPos_setVelocity]
      simp only [Vector2.add, Vector2.mult, gc_friction]
      norm_num [c4Ball]
    rw [if_pos hB2]
    dsimp only
    rw [handleBottom_setVelocity]
    dsimp only
    rw [if_pos rfl]
    simp only [setVelocity_setVelocity, setVelocity_vel, Vector2.mult]
    rw [update_setVelocity_pos c4Ball ⟨c4Ball.pos.x, 749⟩
      ⟨c4Ball.vel.x * (1 - gameConfig.collisionLoss),
        -(-c4Ball.vel.y) * (1 - gameConfig.collisionLoss)⟩
      (sum_sq_ne_right (by norm_num [c4Ball, gc_loss]))]
    rw [topB_iff]
    simp only [Vector2.add, Vector2.mult, gc_friction, gc_loss]
    norm_num [c4Ball]

/-- A legally placed, slow ball about to bounce off the top cushion. -/
noncomputable def c4WitnessBall : Ball := ⟨0, ⟨400, 100⟩, ⟨0, -30⟩, true, true, Color.white⟩

/-- Claim C4, witness: the amended theorem instantiated at a slow ball
heading into the top cushion. -/
theorem c4_cushion_witness :
    (¬ isBallPosOutsideTopBorder gameConfig c4WitnessBall.pos ∧
     ¬ isBallPosOutsideLeftBorder gameConfig c4WitnessBall.pos ∧
     ¬ isBallPosOutsideRightBorder gameConfig c4WitnessBall.pos ∧
     ¬ isBallPosOutsideBottomBorder gameConfig c4WitnessBall.pos) ∧
    |c4WitnessBall.vel.x| ≤ 500 ∧ |c4WitnessBall.vel.y| ≤ 500 ∧
    ((isBallPosOutsideTopBorder gameConfig (c4WitnessBall.nextPosition gameConfig) →
      ¬ isBallPosOutsideLeftBorder gameConfig (c4WitnessBall.nextPosition gameConfig) →
      ¬ isBallPosOutsideRightBorder gameConfig (c4WitnessBall.nextPosition gameConfig) →
      resolveBallCollisionWithCushion gameConfig c4WitnessBall =
        Ball.setVelocity { c4WitnessBall with pos := ⟨c4WitnessBall.pos.x, 76⟩ }
          (Vector2.mult ⟨c4WitnessBall.vel.x, -c4WitnessBall.vel.y⟩
            (1 - gameConfig.collisionLoss))) ∧
    (¬ isBallPosOutsideTopBorder gameConfig
        (Ball.update gameConfig (resolveBallCollisionWithCushion gameConfig c4WitnessBall)).pos ∧
      ¬ isBallPosOutsideLeftBorder gameConfig
        (Ball.update gameConfig (resolveBallCollisionWithCushion gameConfig c4WitnessBall)).pos ∧
      ¬ isBallPosOutsideRightBorder gameConfig
        (Ball.update gameConfig (resolveBallCollisionWithCushion gameConfig c4WitnessBall)).pos ∧
      ¬ isBallPosOutsideBottomBorder gameConfig
        (Ball.update gameConfig (resolveBallCollisionWithCushion gameConfig c4WitnessBall)).pos)) := by
  have h1 : ¬ isBallPosOutsideTopBorder gameConfig c4WitnessBall.pos := by
    rw [topB_iff]
    norm_num [c4WitnessBall]
  have h2 : ¬ isBallPosOutsideLeftBorder gameConfig c4WitnessBall.pos := by
    rw [leftB_iff]
    norm_num [c4WitnessBall]
  have h3 : ¬ isBallPosOutsideRightBorder gameConfig c4WitnessBall.pos := by
    rw [rightB_iff]
    norm_num [c4WitnessBall]
  have h4 : ¬ isBallPosOutsideBottomBorder gameConfig c4WitnessBall.pos := by
    rw [botB_iff]
    norm_num [c4WitnessBall]
  have hvx : |c4WitnessBall.vel.x| ≤ 500 := by
    rw [abs_le]
    norm_num [c4WitnessBall]
  have hvy : |c4WitnessBall.vel.y| ≤ 500 := by
    rw [abs_le]
    norm_num [c4WitnessBall]
  exact ⟨⟨h1, h2, h3, h4⟩, hvx, hvy,
    c4_cushion_amended c4WitnessBall h1 h2 h3 h4 hvx hvy⟩

end EightBall
